import Mathlib

/-!
Verification of the Jira synchronization engine of the Task-Daddy board
application (`apps/api/app/jira/service.py` and `apps/api/app/jira/client.py`).

Modelling conventions:
* Python strings are Lean `String`s; character-level operations work on
  `String.data` (`List Char`).  `str.strip()` is modelled on ASCII whitespace,
  `str.lower()` / `str.isalnum()` on their ASCII behaviour (every concrete
  input used below is ASCII).
* Python `datetime` values are `Int` timestamps; only their ordering matters.
* SQLAlchemy rows are Lean structures; nullable columns are `Option` fields.
* Network calls are oracles passed in as function arguments; the value
  returned by a modelled operation carries a trace of the outbound calls it
  makes, so that "the remote system is called n times" is a provable fact.
* Python truthiness of an optional string (`if x:`) is `pyTruthy`.
-/

namespace TaskDaddy

/-- Truthiness of a nullable Python string: `None` and `""` are falsy. -/
def pyTruthy : Option String → Bool
  | some s => s ≠ ""
  | none => false

/-- `a or b` on a nullable string and a string default (`x or "d"`). -/
def pyOrDefault (a : Option String) (d : String) : String :=
  match a with
  | some s => if s = "" then d else s
  | none => d

/-- `a or b` where both operands are nullable strings. -/
def pyOrOpt (a b : Option String) : Option String :=
  if pyTruthy a then a else b

/-- Drop leading and trailing characters satisfying `p` (list version of
Python's `str.strip(chars)`). -/
def stripEnds (p : Char → Bool) (l : List Char) : List Char :=
  ((l.dropWhile p).reverse.dropWhile p).reverse

/-- Python `str.strip()` (ASCII whitespace) on a string. -/
def pyStripString (s : String) : String :=
  String.mk (stripEnds Char.isWhitespace s.data)

/-- Python `str.rstrip("/")`. -/
def rstripSlash (s : String) : String :=
  String.mk (s.data.reverse.dropWhile (fun c => c = '/')).reverse

/-! ## The label sanitizer `_jira_labelize` (service.py) -/

/-- Characters kept by the sanitizer's filter:
`ch.isalnum() or ch in ("-", "_", ".")` (ASCII `isalnum`). -/
def jiraLabelKeep (c : Char) : Bool :=
  c.isAlphanum || c = '-' || c = '_' || c = '.'

/-- Characters removed from both ends by `.strip("-. _")`. -/
def labelEdgeChar (c : Char) : Bool :=
  c = '-' || c = '.' || c = ' ' || c = '_'

/-- `_jira_labelize` on a character list:
strip whitespace, lowercase, bail out if empty, spaces to hyphens, keep only
alphanumerics and `-`/`_`/`.`, strip `-. _` from both ends, bail out if
empty, truncate to 50 characters. -/
def jiraLabelizeChars (raw : List Char) : Option (List Char) :=
  let s := (stripEnds Char.isWhitespace raw).map Char.toLower
  if s = [] then none
  else
    let s := s.map fun c => if c = ' ' then '-' else c
    let out := s.filter jiraLabelKeep
    let label := stripEnds labelEdgeChar out
    if label = [] then none else some (label.take 50)

/-- `_jira_labelize` from `app/jira/service.py`. -/
def jiraLabelize (raw : String) : Option String :=
  (jiraLabelizeChars raw.data).map String.mk

/-- Character class `[a-z0-9._-]` used by the specification's description of
the sanitizer. -/
def specLabelKeep (c : Char) : Bool :=
  (decide ('a' ≤ c) && decide (c ≤ 'z')) || (decide ('0' ≤ c) && decide (c ≤ '9'))
    || c = '.' || c = '_' || c = '-'

/-- The sanitizer exactly as the specification sentence describes it:
lowercase, spaces to hyphens, strip every character outside `[a-z0-9._-]`,
truncate to 50 characters, drop empty results.  (Refinement reference only;
compare with `jiraLabelizeChars`.) -/
def labelizeClaimChars (raw : List Char) : Option (List Char) :=
  let out := ((raw.map Char.toLower).map fun c => if c = ' ' then '-' else c).filter specLabelKeep
  let label := out.take 50
  if label = [] then none else some label

/-- String version of `labelizeClaimChars`. -/
def labelizeClaim (raw : String) : Option String :=
  (labelizeClaimChars raw.data).map String.mk

/-- The sanitizer as the amended claim describes it: lowercase, spaces to
hyphens, keep only alphanumerics and `-`/`_`/`.`, additionally strip
leading/trailing `-`, `.`, `_` and space, truncate to 50, drop empty. -/
def labelizeAmendedChars (raw : List Char) : Option (List Char) :=
  let out := ((raw.map Char.toLower).map fun c => if c = ' ' then '-' else c).filter jiraLabelKeep
  let label := (stripEnds labelEdgeChar out).take 50
  if label = [] then none else some label

/-! ## The priority table in `create_jira_issue_from_task` -/

/-- `priority_map.get(task.priority or "P2", "High")` with
`priority_map = {"P0": "Highest", "P1": "High", "P2": "Medium", "P3": "Low"}`.
`task.priority` is a non-nullable column, so absence means the empty string. -/
def jiraPriorityOf (priority : String) : String :=
  let key := if priority = "" then "P2" else priority
  if key = "P0" then "Highest"
  else if key = "P1" then "High"
  else if key = "P2" then "Medium"
  else if key = "P3" then "Low"
  else "High"

example : jiraPriorityOf "P0" = "Highest" := by decide
example : jiraPriorityOf "" = "Medium" := by decide
example : jiraLabelize "My Tag!" = some "my-tag" := by decide
example : jiraLabelize "-abc" = some "abc" := by decide
example : labelizeClaim "-abc" = some "-abc" := by decide
example : jiraLabelize "  " = none := by decide
example : labelizeAmendedChars "  ".data = none := by decide

/-! ## Data model (`app/models.py`, engine-relevant slices) -/

/-- A row of the `tasks` table (the fields the sync engine reads or writes). -/
structure Task where
  id : String
  boardId : String
  laneId : String
  stateKey : String
  title : String
  description : String
  ownerId : Option String
  priority : String
  type : String
  tags : List String
  dueDate : Option Int
  blocked : Bool
  blockedReason : Option String
  jiraKey : Option String
  jiraUrl : Option String
  jiraConnectionId : Option String
  jiraSyncEnabled : Bool
  jiraProjectKey : Option String
  jiraIssueType : Option String
  jiraUpdatedAt : Option Int
  jiraLastSyncAt : Option Int
  orderIndex : Int
  version : Nat
  createdAt : Int
  updatedAt : Int
deriving DecidableEq

/-- A row of the `lanes` table. -/
structure Lane where
  id : String
  boardId : String
  name : String
  stateKey : String
  type : String
  position : Int
deriving DecidableEq

/-- A row of `jira_sync_profiles`; the JSON mapping tables are association
lists. -/
structure JiraSyncProfile where
  boardId : String
  connectionId : String
  jql : String
  statusToStateKey : List (String × String)
  priorityMap : List (String × String)
  typeMap : List (String × String)
  conflictPolicy : String
deriving DecidableEq

/-- One entry of `SyncRun.log` as appended by `_log`; `atTime` models the
`"at"` key. -/
structure LogEntry where
  atTime : Int
  level : String
  message : String
deriving DecidableEq

/-- A row of `sync_runs` (the engine-visible fields). -/
structure SyncRunRec where
  boardId : String
  profileId : String
  status : String
  startedAt : Option Int
  finishedAt : Option Int
  log : List LogEntry
  errorMessage : Option String
deriving DecidableEq

/-- A remote issue as consumed by the sync loop.  The nested
`{"name": ...}` objects of `status` / `priority` / `issuetype` are flattened
to their (optional) name, and the `duedate` / `updated` strings are carried
as already-parsed timestamps. -/
structure JiraIssueFields where
  summary : Option String
  statusName : Option String
  priorityName : Option String
  issuetypeName : Option String
  labels : List String
  duedate : Option Int
  updated : Option Int
deriving DecidableEq

/-- One element of the search response's `issues` array. -/
structure JiraIssue where
  key : Option String
  fields : JiraIssueFields
deriving DecidableEq

/-! ## SyncRun lifecycle (`import_issues_to_board`, `sync_now`, `_run_sync`) -/

/-- The `SyncRun` row as created by both entry points:
`SyncRun(board_id=..., profile_id=..., status="success", log=[])`. -/
def newSyncRun (boardId profileId : String) : SyncRunRec :=
  { boardId := boardId, profileId := profileId, status := "success",
    startedAt := none, finishedAt := none, log := [], errorMessage := none }

/-- The `_log` helper: append one `{at, level, message}` entry. -/
def logTo (run : SyncRunRec) (now : Int) (level message : String) : SyncRunRec :=
  { run with log := run.log ++ [⟨now, level, message⟩] }

/-- The three run counters of `_run_sync`. -/
structure SyncCounters where
  importedCount : Nat
  updatedCount : Nat
  conflictsCount : Nat
deriving DecidableEq

/-- The epilogue of `_run_sync`: either the success tail of the `try` block
or the `except` handler.  The error string is `_error_text` of the
exception. -/
def finishSyncRun (run : SyncRunRec) (outcome : Except String SyncCounters)
    (now : Int) : SyncRunRec :=
  match outcome with
  | .ok c =>
    let r := { run with status := "success", finishedAt := some now }
    logTo r now "info"
      ("Done imported=" ++ toString c.importedCount ++ " updated=" ++
        toString c.updatedCount ++ " conflicts=" ++ toString c.conflictsCount)
  | .error err =>
    let r := { run with
               status := "error", errorMessage := some err, finishedAt := some now }
    logTo r now "error" ("Sync error: " ++ err)

/-- All `_log` appends performed during a run, applied in order. -/
def applyRunLogs (run : SyncRunRec) (entries : List (Int × String × String)) :
    SyncRunRec :=
  entries.foldl (fun r e => logTo r e.1 e.2.1 e.2.2) run

/-! ## Per-record processing in `_run_sync` -/

/-- Python string interpolation of a nullable string (`f"{key}"`). -/
def pyShowOpt : Option String → String
  | some s => s
  | none => "None"

/-- SQL `=` on two nullable strings: comparison with NULL is never true. -/
def sqlStrEq : Option String → Option String → Bool
  | some a, some b => a = b
  | _, _ => false

/-- `lane_by_state = {l.state_key: l for l in lanes}` followed by `.get`:
for duplicate state keys the later lane wins. -/
def laneByStateKey (lanes : List Lane) (k : String) : Option Lane :=
  lanes.reverse.find? fun l => l.stateKey = k

/-- `next((l for l in lanes if l.type == "backlog"), lanes[0] if lanes else None)`.
`lanes` is ordered by position, as queried. -/
def selectBacklogLane (lanes : List Lane) : Option Lane :=
  match lanes.find? fun l => l.type = "backlog" with
  | some l => some l
  | none => lanes.head?

/-- Ordering used by the duplicate-key lookup:
`order_by(updated_at desc, created_at desc, id desc)`. -/
def taskDescLE (t1 t2 : Task) : Bool :=
  decide (t2.updatedAt < t1.updatedAt) ||
    (t1.updatedAt = t2.updatedAt &&
      (decide (t2.createdAt < t1.createdAt) ||
        (t1.createdAt = t2.createdAt && decide (t2.id ≤ t1.id))))

/-- Insertion into a list sorted by `le` (stable). -/
def insertSorted (le : Task → Task → Bool) (x : Task) : List Task → List Task
  | [] => [x]
  | y :: rest => if le x y then x :: y :: rest else y :: insertSorted le x rest

/-- Stable insertion sort by `le`. -/
def sortTasks (le : Task → Task → Bool) (l : List Task) : List Task :=
  l.foldr (insertSorted le) []

/-- The existing-task lookup of `_run_sync`:
tasks of the board with this Jira key, most recently updated first. -/
def taskMatches (db : List Task) (boardId : String) (key : Option String) :
    List Task :=
  sortTasks taskDescLE
    (db.filter fun t => t.boardId = boardId && sqlStrEq t.jiraKey key)

/-- The values `_run_sync` extracts and maps from one remote issue before
touching the task store. -/
structure MappedIssue where
  keyDisp : String
  summary : Option String
  stateKey : String
  lane : Lane
  mappedPriority : String
  mappedType : String
  labels : List String
  dueDt : Option Int
  jiraUpdatedDt : Option Int
  jiraUrl : Option String
deriving DecidableEq

/-- The mapping block at the top of the per-issue loop body. -/
def mapIssue (profile : JiraSyncProfile) (lanes : List Lane)
    (backlogLane : Lane) (baseUrl : String) (issue : JiraIssue) : MappedIssue :=
  let fields := issue.fields
  let summary := pyOrOpt fields.summary issue.key
  let statusName := pyOrDefault fields.statusName ""
  let stateKey0 := pyOrDefault (profile.statusToStateKey.lookup statusName) ""
  let lane0 := if stateKey0 ≠ "" then laneByStateKey lanes stateKey0 else none
  let (lane, stateKey) :=
    match lane0 with
    | some l => (l, stateKey0)
    | none => (backlogLane, backlogLane.stateKey)
  let priorityName := pyOrDefault fields.priorityName ""
  let issueType := pyOrDefault fields.issuetypeName ""
  { keyDisp := pyShowOpt issue.key,
    summary := summary,
    stateKey := stateKey,
    lane := lane,
    mappedPriority := pyOrDefault (profile.priorityMap.lookup priorityName) "P2",
    mappedType := pyOrDefault (profile.typeMap.lookup issueType) "Feature",
    labels := fields.labels,
    dueDt := fields.duedate,
    jiraUpdatedDt := fields.updated,
    jiraUrl := if pyTruthy issue.key
      then some (rstripSlash baseUrl ++ "/browse/" ++ issue.key.getD "")
      else none }

/-- Result of the update branch for one existing task. -/
structure UpdateOutcome where
  task : Task
  updatedDelta : Nat
  conflictsDelta : Nat
  logs : List LogEntry
deriving DecidableEq

/-- The existing-task branch of the per-issue loop body: conflict detection
against `jira_last_sync_at`, then the `conflict_policy == "jiraWins"` guarded
mutation.  A `None` title would fail at flush; modelled as `""`.  The
`updated_at` refresh models the column's `onupdate=utcnow`. -/
def updateExistingTask (policy keyDisp : String) (existing : Task)
    (m : MappedIssue) (now : Int) : UpdateOutcome :=
  let lastSync := existing.jiraLastSyncAt
  let appChanged : Bool :=
    match lastSync with
    | some ls => decide (ls < existing.updatedAt)
    | none => false
  let jiraChanged : Bool :=
    match lastSync, m.jiraUpdatedDt with
    | some ls, some ju => decide (ls < ju)
    | _, _ => false
  let conflictsDelta := if appChanged && jiraChanged then 1 else 0
  let logs0 : List LogEntry :=
    if appChanged && jiraChanged then
      [⟨now, "warn", "Conflict on " ++ keyDisp ++ " (policy=" ++ policy ++ ")"⟩]
    else []
  if policy = "jiraWins" then
    let t1 := { existing with
                title := m.summary.getD "", priority := m.mappedPriority,
                type := m.mappedType, tags := m.labels, dueDate := m.dueDt,
                jiraUrl := m.jiraUrl, jiraUpdatedAt := m.jiraUpdatedDt }
    let t2 := if t1.laneId ≠ m.lane.id
      then { t1 with laneId := m.lane.id, stateKey := m.stateKey }
      else t1
    let t3 := { t2 with
                jiraLastSyncAt := some now, version := existing.version + 1,
                updatedAt := now }
    { task := t3, updatedDelta := 1, conflictsDelta := conflictsDelta,
      logs := logs0 ++ [⟨now, "info", "Updated " ++ keyDisp ++ " -> " ++ existing.id⟩] }
  else
    { task := existing, updatedDelta := 0, conflictsDelta := conflictsDelta,
      logs := logs0 }

/-- Result of processing one remote issue. -/
structure IssueOutcome where
  db : List Task
  importedDelta : Nat
  updatedDelta : Nat
  conflictsDelta : Nat
  logs : List LogEntry
  audits : List String
deriving DecidableEq

/-- The full per-issue loop body of `_run_sync`: map the issue, look up
matching tasks (warning and conflict bump on duplicates), then create or
update.  `newTaskId` stands for the generated UUID of a created task. -/
def processIssue (profile : JiraSyncProfile) (lanes : List Lane)
    (backlogLane : Lane) (baseUrl : String) (now : Int) (newTaskId : String)
    (db : List Task) (issue : JiraIssue) : IssueOutcome :=
  let m := mapIssue profile lanes backlogLane baseUrl issue
  let matchList := taskMatches db profile.boardId issue.key
  let dupConf : Nat := if matchList.length > 1 then 1 else 0
  let dupLogs : List LogEntry :=
    if matchList.length > 1 then
      [⟨now, "warn", "Duplicate Jira key mapping detected for " ++ m.keyDisp ++
        "; using task " ++ (match matchList.head? with | some t => t.id | none => "")⟩]
    else []
  match matchList.head? with
  | none =>
    let maxOrder := ((db.filter fun t =>
        t.boardId = profile.boardId && t.laneId = m.lane.id).map
        (fun t => t.orderIndex)).max?
    let newOrder := match maxOrder with | some mo => mo + 1 | none => 0
    let t : Task :=
      { id := newTaskId, boardId := profile.boardId, laneId := m.lane.id,
        stateKey := m.stateKey, title := m.summary.getD "", description := "",
        ownerId := none, priority := m.mappedPriority, type := m.mappedType,
        tags := m.labels, dueDate := m.dueDt, blocked := false,
        blockedReason := none, jiraKey := issue.key, jiraUrl := m.jiraUrl,
        jiraConnectionId := none, jiraSyncEnabled := false,
        jiraProjectKey := none, jiraIssueType := none,
        jiraUpdatedAt := m.jiraUpdatedDt, jiraLastSyncAt := some now,
        orderIndex := newOrder, version := 0, createdAt := now, updatedAt := now }
    { db := db ++ [t], importedDelta := 1, updatedDelta := 0,
      conflictsDelta := dupConf,
      logs := dupLogs ++
        [⟨now, "info", "Imported " ++ m.keyDisp ++ " -> " ++ newTaskId ++
          " lane=" ++ m.lane.name⟩],
      audits := ["task.imported"] }
  | some existing =>
    let u := updateExistingTask profile.conflictPolicy m.keyDisp existing m now
    { db := db.map fun t => if t.id = existing.id then u.task else t,
      importedDelta := 0, updatedDelta := u.updatedDelta,
      conflictsDelta := dupConf + u.conflictsDelta,
      logs := dupLogs ++ u.logs, audits := [] }

/-! ## Search endpoints (`app/jira/client.py`) and the pagination loop -/

/-- A decoded search response.  The preferred `/search/jql` endpoint
populates `nextPageToken` / `isLast`; the legacy `/search` endpoint
populates `startAt` / `total`.  `jira_search`'s docstring promises only
`issues` plus optional pagination keys. -/
structure SearchData where
  issues : List JiraIssue
  nextPageToken : Option String
  isLast : Option Bool
  startAt : Option Nat
  total : Option Nat
deriving DecidableEq

/-- The two remote search endpoints for a fixed JQL query and page size.
A `.error c` value is a `JiraApiError` with that HTTP status.  The preferred
endpoint is keyed by the optional `nextPageToken`, the legacy endpoint by the
numeric `startAt` offset. -/
structure JiraSearchApi where
  searchJql : Option String → Except Nat SearchData
  searchLegacy : Nat → Except Nat SearchData

/-- `jira_search` (the compatibility helper): call `/search/jql` without a
page token; on a 404/410 `JiraApiError` retry the legacy `/search` endpoint
with the numeric offset; other errors propagate.  The legacy response is
returned unchanged. -/
def jiraSearch (api : JiraSearchApi) (startAt : Nat) : Except Nat SearchData :=
  match api.searchJql none with
  | .ok d => .ok d
  | .error c => if c = 404 ∨ c = 410 then api.searchLegacy startAt else .error c

/-- Truthiness of the `next_page_token` variable. -/
def tokTruthy : Option String → Bool
  | some s => s ≠ ""
  | none => false

/-- Outcome of the `while True` fetch loop in `_run_sync`: either the stream
of issues processed (pages concatenated in order) or the status of the
`JiraApiError` that aborted the run. -/
inductive SyncFetchResult where
  | done (processed : List JiraIssue)
  | failed (statusCode : Nat)
deriving DecidableEq

/-- The pagination loop skeleton of `_run_sync`: fetch a page from the
preferred endpoint (the loop calls `jira_search_jql` directly, not
`jira_search`), stop on an empty page, otherwise process its issues and
continue with `nextPageToken` unless `bool(isLast) or not next_token`.
The loop in the source has no bound; `fuel` makes the model total and
`none` marks fuel exhaustion. -/
def syncFetchLoop (searchJql : Option String → Except Nat SearchData) :
    Nat → Option String → List JiraIssue → Option SyncFetchResult
  | 0, _, _ => none
  | fuel + 1, tok, acc =>
    match searchJql tok with
    | .error c => some (.failed c)
    | .ok data =>
      if data.issues.isEmpty then some (.done acc)
      else
        let acc2 := acc ++ data.issues
        let isLast := data.isLast.getD false || !(tokTruthy data.nextPageToken)
        if isLast then some (.done acc2)
        else syncFetchLoop searchJql fuel data.nextPageToken acc2

/-- An opaque page token for page `i` (any injective encoding works; the
engine never inspects token contents). -/
def pageToken (i : Nat) : String :=
  String.mk (List.replicate i 'p')

/-- A faithful token-paginated search endpoint over a fixed result set of
`pages`: no token serves page 0, the token of page `i` serves page `i`,
each page links to the next and flags `isLast` on the final one. -/
def pageApi (pages : List (List JiraIssue)) :
    Option String → Except Nat SearchData := fun tok =>
  let i := match tok with
    | none => 0
    | some s => s.length
  match pages.get? i with
  | none => .ok { issues := [], nextPageToken := none, isLast := some true,
                  startAt := none, total := none }
  | some pg =>
    .ok { issues := pg,
          nextPageToken := if i + 1 < pages.length then some (pageToken (i + 1)) else none,
          isLast := some (decide (pages.length ≤ i + 1)),
          startAt := none, total := none }

/-! ## `create_jira_issue_from_task` (idempotent create-and-link) -/

/-- A row of the `users` table (engine-relevant fields). -/
structure UserRec where
  id : String
  email : Option String
  name : String
  jiraAccountId : Option String
deriving DecidableEq

/-- A row of `jira_connections` (engine-relevant fields). -/
structure JiraConnection where
  id : String
  baseUrl : String
  email : Option String
  defaultAssigneeAccountId : Option String
deriving DecidableEq

/-- The field set of one `jira_create_issue` call (optional fields are only
sent when present). -/
structure CreateIssueReq where
  projectKey : String
  summary : String
  description : String
  issueType : String
  labels : List String
  priorityName : Option String
  assigneeAccountId : Option String
deriving DecidableEq

/-- Remote response to a create call: the created record's `key`, or a
`JiraApiError` with an HTTP status. -/
inductive CreateOutcome where
  | ok (key : Option String)
  | apiError (statusCode : Nat)
deriving DecidableEq

/-- `_resolve_assignee_account_id`: `owner` is the DB row for
`task.owner_id`, `userSearch` the Jira user-search response (each entry is
the optional `accountId` of a candidate; `.error` is a raised exception,
which the function swallows into `None`). -/
def resolveAssigneeAccountId (assigneeMode : String)
    (connDefault settingsDefault : Option String) (ownerId : Option String)
    (owner : Option UserRec) (userSearch : Except Unit (List (Option String))) :
    Option String :=
  if assigneeMode = "unassigned" ∨ assigneeMode = "projectDefault" then none
  else if assigneeMode = "connectionDefault" then
    let cid := pyStripString (connDefault.getD "")
    if cid ≠ "" then some cid
    else
      let sd := pyStripString (settingsDefault.getD "")
      if sd ≠ "" then some sd else none
  else if assigneeMode ≠ "taskOwner" then none
  else
    match ownerId with
    | none => none
    | some _ =>
      match owner with
      | none => none
      | some u =>
        if pyTruthy u.jiraAccountId then u.jiraAccountId
        else if pyTruthy u.email then
          match userSearch with
          | .error _ => none
          | .ok users =>
            match users.find? pyTruthy with
            | some (some a) => some a
            | _ => none
        else none

/-- The `try create / except JiraApiError(400): retry without priority /
except JiraApiError: retry without priority and assignee` chain.  Returns
the final outcome and the trace of attempted requests, in order. -/
def createWithRetries (remote : CreateIssueReq → CreateOutcome)
    (req : CreateIssueReq) : Except Nat (Option String) × List CreateIssueReq :=
  match remote req with
  | .ok k => (.ok k, [req])
  | .apiError c =>
    if c = 400 then
      let req2 := { req with priorityName := none }
      match remote req2 with
      | .ok k => (.ok k, [req, req2])
      | .apiError _ =>
        let req3 := { req with priorityName := none, assigneeAccountId := none }
        match remote req3 with
        | .ok k => (.ok k, [req, req2, req3])
        | .apiError c3 => (.error c3, [req, req2, req3])
    else (.error c, [req])

/-- Result of `create_jira_issue_from_task`, with the trace of outbound
calls.  `result` is the returned task or the message of the raised
exception; `searchCalls` records `(jql, maxResults)` of marker searches. -/
structure CreateLinkResult where
  result : Except String Task
  searchCalls : List (String × Nat)
  createCalls : List CreateIssueReq
  setAssigneeCalls : List (Option String)
  audits : List String

/-- `create_jira_issue_from_task`: idempotent short-circuit when already
linked; marker search (bounded to 2 results) and relink when the remote
record still exists; otherwise create with the 400 fallback chain, stamp the
link fields, and best-effort assignment.  `markerSearch` is the response to
the marker search (`.error` is any exception, which is swallowed);
`setAssigneeOk` tells whether a `jira_set_assignee` call succeeds. -/
def createJiraIssueFromTask (task : Task) (connection : JiraConnection)
    (projectKey : String) (issueType : Option String) (enableSync : Bool)
    (assigneeMode : String) (settingsDefaultAssignee : Option String)
    (owner : Option UserRec) (userSearch : Except Unit (List (Option String)))
    (markerSearch : Except Unit SearchData)
    (remoteCreate : CreateIssueReq → CreateOutcome)
    (setAssigneeOk : Option String → Bool) (now : Int) : CreateLinkResult :=
  if pyTruthy task.jiraKey then
    { result := .ok task, searchCalls := [], createCalls := [],
      setAssigneeCalls := [], audits := [] }
  else
    let tagLabels := task.tags.filterMap jiraLabelize
    let idLabel := "task-daddy-task-" ++ task.id
    let labels := (tagLabels ++ ["task-daddy", idLabel]).dedup
    let jql := "labels = \"" ++ idLabel ++ "\""
    let relinked : Option Task :=
      match markerSearch with
      | .error _ => none
      | .ok found =>
        match found.issues.head? with
        | none => none
        | some first =>
          if pyTruthy first.key then
            some { task with
                   jiraConnectionId := some connection.id,
                   jiraKey := first.key,
                   jiraUrl := some (rstripSlash connection.baseUrl ++ "/browse/" ++
                     first.key.getD ""),
                   jiraSyncEnabled := enableSync,
                   jiraProjectKey := some projectKey,
                   jiraIssueType := some (pyOrDefault issueType "Task"),
                   jiraLastSyncAt := some now,
                   version := task.version + 1,
                   updatedAt := now }
          else none
    match relinked with
    | some t =>
      { result := .ok t, searchCalls := [(jql, 2)], createCalls := [],
        setAssigneeCalls := [], audits := ["task.jira.relinked"] }
    | none =>
      let jiraPriority := jiraPriorityOf task.priority
      let assigneeAccountId := resolveAssigneeAccountId assigneeMode
        connection.defaultAssigneeAccountId settingsDefaultAssignee
        task.ownerId owner userSearch
      let req : CreateIssueReq :=
        { projectKey := projectKey, summary := task.title,
          description := task.description,
          issueType := pyOrDefault issueType "Task", labels := labels,
          priorityName := some jiraPriority,
          assigneeAccountId := assigneeAccountId }
      match createWithRetries remoteCreate req with
      | (.error c, calls) =>
        { result := .error ("JiraApiError status " ++ toString c),
          searchCalls := [(jql, 2)], createCalls := calls,
          setAssigneeCalls := [], audits := [] }
      | (.ok createdKey, calls) =>
        if pyTruthy createdKey then
          let key := createdKey.getD ""
          let t := { task with
                     jiraConnectionId := some connection.id,
                     jiraKey := some key,
                     jiraUrl := some (rstripSlash connection.baseUrl ++ "/browse/" ++ key),
                     jiraSyncEnabled := enableSync,
                     jiraProjectKey := some projectKey,
                     jiraIssueType := some (pyOrDefault issueType "Task"),
                     jiraLastSyncAt := some now,
                     version := task.version + 1,
                     updatedAt := now }
          let sa : List (Option String) × List String :=
            if assigneeMode = "unassigned" then
              ([none], if setAssigneeOk none then [] else ["task.jira.assign_failed"])
            else if pyTruthy assigneeAccountId then
              ([assigneeAccountId],
                if setAssigneeOk assigneeAccountId then []
                else ["task.jira.assign_failed"])
            else ([], [])
          { result := .ok t, searchCalls := [(jql, 2)], createCalls := calls,
            setAssigneeCalls := sa.1, audits := sa.2 ++ ["task.jira.created"] }
        else
          { result := .error "Jira create issue succeeded but did not return key",
            searchCalls := [(jql, 2)], createCalls := calls,
            setAssigneeCalls := [], audits := [] }

/-! ## Comment bridge (`_import_jira_comments`, `_export_task_comments_to_jira`) -/

/-- A row of the `comments` table (engine-relevant fields). -/
structure CommentRec where
  id : String
  taskId : String
  authorId : String
  body : String
  source : String
  sourceId : Option String
  sourceAuthor : Option String
  sourceUrl : Option String
  jiraCommentId : Option String
  jiraExportedAt : Option Int
  createdAt : Int
deriving DecidableEq

/-- One remote comment as returned by `jira_list_comments`.  `bodyText` is
the comment body after the ADF/plain-string extraction (before the
`\r\n` normalization and strip), `created` the parsed timestamp. -/
structure JiraComment where
  id : Option String
  authorDisplayName : Option String
  authorEmail : Option String
  authorAccountId : Option String
  created : Option Int
  bodyText : String
deriving DecidableEq

/-- `"\r\n" → "\n"` replacement on a character list. -/
def replCRLF : List Char → List Char
  | [] => []
  | '\r' :: '\n' :: rest => '\n' :: replCRLF rest
  | c :: rest => c :: replCRLF rest

/-- `(body_text or "").replace("\r\n", "\n").strip()`. -/
def normalizeCommentBody (s : String) : String :=
  String.mk (stripEnds Char.isWhitespace (replCRLF s.data))

/-- Stand-in for `strftime("%Y-%m-%d %H:%M:%SZ")`; only injectivity on the
modelled timestamps matters. -/
def fmtTs (t : Int) : String := toString t ++ "Z"

/-- `author.get("displayName") or author.get("emailAddress") or
author.get("accountId")`. -/
def jiraCommentAuthorName (c : JiraComment) : Option String :=
  pyOrOpt c.authorDisplayName (pyOrOpt c.authorEmail c.authorAccountId)

/-- `str(author_name).strip() if isinstance(author_name, str) and
author_name.strip() else "Unknown"`. -/
def authorDisp (an : Option String) : String :=
  match an with
  | some s => if pyStripString s ≠ "" then pyStripString s else "Unknown"
  | none => "Unknown"

/-- The `Comment(...)` row inserted for one new remote comment (`rawCid` the
raw id string, `normCid` its stripped form, `bodyNorm` the normalized body).
The generated UUID is modelled deterministically; its value is never used. -/
def mkImportedComment (task : Task) (botId : String) (c : JiraComment)
    (rawCid normCid bodyNorm : String) (now : Int) : CommentRec :=
  let createdAt := c.created.getD now
  let an := jiraCommentAuthorName c
  let body := ("JIRA:>> [" ++ fmtTs createdAt ++ "] " ++ authorDisp an ++ ": " ++
    bodyNorm).take 20000
  { id := "jira-import-" ++ normCid,
    taskId := task.id,
    authorId := botId,
    body := body,
    source := "jira",
    sourceId := some normCid,
    sourceAuthor := if pyTruthy an then some (pyStripString (an.getD "")) else none,
    sourceUrl := if pyTruthy task.jiraUrl
      then some (task.jiraUrl.getD "" ++ "?focusedCommentId=" ++ rawCid)
      else none,
    jiraCommentId := none,
    jiraExportedAt := none,
    createdAt := createdAt }

/-- The insert loop of `_import_jira_comments`: skip invalid ids, ids already
present (`existing` is threaded and grows with each insert), and comments
whose normalized body is empty; insert the rest.  Returns the inserted rows
and the insert count. -/
def importCommentsLoop (task : Task) (botId : String) (now : Int) :
    List String → List JiraComment → List CommentRec × Nat
  | _, [] => ([], 0)
  | existing, c :: rest =>
    match c.id with
    | none => importCommentsLoop task botId now existing rest
    | some raw =>
      let n := pyStripString raw
      if n = "" then importCommentsLoop task botId now existing rest
      else if n ∈ existing then importCommentsLoop task botId now existing rest
      else
        let bodyNorm := normalizeCommentBody c.bodyText
        if bodyNorm = "" then importCommentsLoop task botId now existing rest
        else
          let inserted := mkImportedComment task botId c raw n bodyNorm now
          let r := importCommentsLoop task botId now (n :: existing) rest
          (inserted :: r.1, r.2 + 1)

/-- The stripped ids of the remote comments (`ids` in the source). -/
def jiraCommentIds (remote : List JiraComment) : List String :=
  remote.filterMap fun c =>
    match c.id with
    | some s => if pyStripString s = "" then none else some (pyStripString s)
    | none => none

/-- The existing-id set: source ids of this task's `source == "jira"`
comments restricted to `ids`, with falsy values dropped. -/
def existingJiraIds (task : Task) (localComments : List CommentRec)
    (ids : List String) : List String :=
  ((localComments.filter fun lc =>
      lc.taskId = task.id && lc.source = "jira" &&
        (match lc.sourceId with
         | some sid => decide (sid ∈ ids)
         | none => false)).filterMap fun lc => lc.sourceId).filter fun x => x ≠ ""

/-- `_import_jira_comments` over an already-fetched remote comment list:
returns the inserted rows and the count. -/
def importJiraComments (task : Task) (localComments : List CommentRec)
    (remote : List JiraComment) (botId : String) (now : Int) :
    List CommentRec × Nat :=
  if remote.isEmpty then ([], 0)
  else
    let ids := jiraCommentIds remote
    if ids.isEmpty then ([], 0)
    else importCommentsLoop task botId now (existingJiraIds task localComments ids) remote

/-- Remote response to `jira_add_comment`: the created comment's optional
`id`, or a raised exception. -/
inductive AddCommentOutcome where
  | ok (respId : Option String)
  | err
deriving DecidableEq

/-- The export body for one local comment:
`f"{header}\n{marker}\n\n{(c.body or '').strip()}".strip()`. -/
def exportBody (c : CommentRec) (authorName : String) : String :=
  let header := "NEONLANES:>> [" ++ fmtTs c.createdAt ++ "] " ++ authorName ++ ":"
  let marker := "Task-Daddy commentId=" ++ c.id
  pyStripString (header ++ "\n" ++ marker ++ "\n\n" ++ pyStripString c.body)

/-- Ascending insertion by `created_at` (the `order_by(created_at.asc())`). -/
def insertByCreated (c : CommentRec) : List CommentRec → List CommentRec
  | [] => [c]
  | d :: rest =>
    if c.createdAt ≤ d.createdAt then c :: d :: rest else d :: insertByCreated c rest

/-- Sort comments by `created_at` ascending. -/
def sortByCreatedAsc (l : List CommentRec) : List CommentRec :=
  l.foldr insertByCreated []

/-- The per-comment export loop: one `addComment` call per comment; a failed
call is skipped, a successful call with a truthy response id records the
`(comment id, stripped response id)` update.  Returns the updates, the
export count and the bodies sent. -/
def exportCommentsLoop (userName : String → String)
    (addComment : String → AddCommentOutcome) :
    List CommentRec → List (String × String) × Nat × List String
  | [] => ([], 0, [])
  | c :: rest =>
    let body := exportBody c (userName c.authorId)
    let r := exportCommentsLoop userName addComment rest
    match addComment body with
    | .err => (r.1, r.2.1, body :: r.2.2)
    | .ok respId =>
      match respId with
      | some cid =>
        if pyStripString cid ≠ "" then
          ((c.id, pyStripString cid) :: r.1, r.2.1 + 1, body :: r.2.2)
        else (r.1, r.2.1, body :: r.2.2)
      | none => (r.1, r.2.1, body :: r.2.2)

/-- Result of `_export_task_comments_to_jira`: the comment table after the
export-marker updates, the export count, and the bodies sent. -/
structure ExportOutcome where
  comments : List CommentRec
  exportedCount : Nat
  addCalls : List String
deriving DecidableEq

/-- `_export_task_comments_to_jira`: select this task's never-exported
app-authored comments oldest-first, send each, and stamp `jira_comment_id` /
`jira_exported_at` on success.  `userName` models the author join. -/
def exportTaskComments (task : Task) (localComments : List CommentRec)
    (userName : String → String) (addComment : String → AddCommentOutcome)
    (now : Int) : ExportOutcome :=
  if ¬ pyTruthy task.jiraKey then
    { comments := localComments, exportedCount := 0, addCalls := [] }
  else
    let elig := sortByCreatedAsc (localComments.filter fun c =>
      c.taskId = task.id && c.source = "app" && c.jiraCommentId = none)
    let r := exportCommentsLoop userName addComment elig
    { comments := localComments.map fun c =>
        match r.1.lookup c.id with
        | some jid => { c with jiraCommentId := some jid, jiraExportedAt := some now }
        | none => c,
      exportedCount := r.2.1,
      addCalls := r.2.2 }

/-! ## Helper lemmas -/

/-- Every run of the create fallback chain attempts the full request first. -/
theorem createWithRetries_head (remote : CreateIssueReq → CreateOutcome)
    (req : CreateIssueReq) : (createWithRetries remote req).2.head? = some req := by
  unfold createWithRetries
  cases remote req with
  | ok k => rfl
  | apiError c =>
    by_cases h : c = 400
    · simp only [h, if_pos rfl]
      cases remote { req with priorityName := none } with
      | ok k => rfl
      | apiError c2 =>
        cases remote { req with priorityName := none, assigneeAccountId := none } with
        | ok k => rfl
        | apiError c3 => rfl
    · simp [h]

/-- `_log` never touches the status column. -/
theorem logTo_status (run : SyncRunRec) (now : Int) (level message : String) :
    (logTo run now level message).status = run.status := rfl

/-- Applying any sequence of log appends never touches the status column. -/
theorem applyRunLogs_status (entries : List (Int × String × String)) :
    ∀ run : SyncRunRec, (applyRunLogs run entries).status = run.status := by
  induction entries with
  | nil => intro run; rfl
  | cons e rest ih =>
    intro run
    show (applyRunLogs (logTo run e.1 e.2.1 e.2.2) rest).status = run.status
    rw [ih, logTo_status]

/-! ## Claims -/

/-- C7 (counterexample): the claim says `High` is the default whenever the
task's priority is absent, but an absent (empty) priority falls back to the
lookup key `P2` and therefore maps to `Medium`, not `High`. -/
theorem C7_counterexample_absent_priority_is_Medium :
    jiraPriorityOf "" = "Medium" ∧ jiraPriorityOf "" ≠ "High" := by decide

/-- C7 (amended): create-and-link maps the task's priority through the fixed
table `P0→Highest, P1→High, P2→Medium, P3→Low`; a priority outside those four
values maps to the default `High`, while an absent priority falls back to the
key `P2` and therefore maps to `Medium`.  The priority sent on the first
create attempt is exactly this mapping of the task's priority. -/
theorem C7_priority_mapping (p : String)
    (hp : p ≠ "P0" ∧ p ≠ "P1" ∧ p ≠ "P2" ∧ p ≠ "P3" ∧ p ≠ "")
    (task : Task) (connection : JiraConnection) (projectKey : String)
    (issueType : Option String) (enableSync : Bool) (assigneeMode : String)
    (settingsDefaultAssignee : Option String) (owner : Option UserRec)
    (userSearch : Except Unit (List (Option String)))
    (remoteCreate : CreateIssueReq → CreateOutcome)
    (setAssigneeOk : Option String → Bool) (now : Int)
    (hk : pyTruthy task.jiraKey = false) :
    jiraPriorityOf "P0" = "Highest" ∧ jiraPriorityOf "P1" = "High" ∧
    jiraPriorityOf "P2" = "Medium" ∧ jiraPriorityOf "P3" = "Low" ∧
    jiraPriorityOf "" = "Medium" ∧ jiraPriorityOf p = "High" ∧
    ((createJiraIssueFromTask task connection projectKey issueType enableSync
        assigneeMode settingsDefaultAssignee owner userSearch (.error ())
        remoteCreate setAssigneeOk now).createCalls.head?.map
      (fun r => r.priorityName)) = some (some (jiraPriorityOf task.priority)) := by
  obtain ⟨h0, h1, h2, h3, h4⟩ := hp
  refine ⟨rfl, rfl, rfl, rfl, rfl, ?_, ?_⟩
  · unfold jiraPriorityOf
    simp [h0, h1, h2, h3, h4]
  · unfold createJiraIssueFromTask
    rw [hk]
    simp only [Bool.false_eq_true, if_false]
    rcases hcr : createWithRetries remoteCreate
        { projectKey := projectKey, summary := task.title,
          description := task.description,
          issueType := pyOrDefault issueType "Task",
          labels := ((task.tags.filterMap jiraLabelize) ++
            ["task-daddy", "task-daddy-task-" ++ task.id]).dedup,
          priorityName := some (jiraPriorityOf task.priority),
          assigneeAccountId := resolveAssigneeAccountId assigneeMode
            connection.defaultAssigneeAccountId settingsDefaultAssignee
            task.ownerId owner userSearch } with ⟨res, calls⟩
    have hhead := createWithRetries_head remoteCreate
        { projectKey := projectKey, summary := task.title,
          description := task.description,
          issueType := pyOrDefault issueType "Task",
          labels := ((task.tags.filterMap jiraLabelize) ++
            ["task-daddy", "task-daddy-task-" ++ task.id]).dedup,
          priorityName := some (jiraPriorityOf task.priority),
          assigneeAccountId := resolveAssigneeAccountId assigneeMode
            connection.defaultAssigneeAccountId settingsDefaultAssignee
            task.ownerId owner userSearch }
    rw [hcr] at hhead
    cases res with
    | error c => simp_all
    | ok createdKey =>
      by_cases hck : pyTruthy createdKey = true
      · simp_all
      · simp_all

/-- C7 witness. -/
theorem C7_priority_mapping_witness :
    jiraPriorityOf "urgent" = "High" := by
  have h := C7_priority_mapping "urgent" (by decide)
    { id := "tw7", boardId := "b", laneId := "l", stateKey := "s", title := "t",
      description := "", ownerId := none, priority := "urgent", type := "Feature",
      tags := [], dueDate := none, blocked := false, blockedReason := none,
      jiraKey := none, jiraUrl := none, jiraConnectionId := none,
      jiraSyncEnabled := false, jiraProjectKey := none, jiraIssueType := none,
      jiraUpdatedAt := none, jiraLastSyncAt := none, orderIndex := 0,
      version := 0, createdAt := 0, updatedAt := 0 }
    { id := "c", baseUrl := "https://j", email := none,
      defaultAssigneeAccountId := none }
    "PROJ" none true "unassigned" none none (.ok []) (fun _ => .ok (some "K-1"))
    (fun _ => true) 0 (by decide)
  exact h.2.2.2.2.2.1

/-- C10: a SyncRun is created with status `"success"` (both entry points pass
`status="success"` explicitly, matching the column default); log appends
during the run never change it, so a mid-flight observer reads `"success"`;
the epilogue stores `"success"` or, exactly when an exception aborted the
run, `"error"` — the value `"running"` is never stored. -/
theorem C10_syncrun_status_lifecycle (b p : String)
    (entries : List (Int × String × String))
    (outcome : Except String SyncCounters) (now : Int) :
    (newSyncRun b p).status = "success" ∧
    (applyRunLogs (newSyncRun b p) entries).status = "success" ∧
    ((finishSyncRun (applyRunLogs (newSyncRun b p) entries) outcome now).status = "success" ∨
      (finishSyncRun (applyRunLogs (newSyncRun b p) entries) outcome now).status = "error") ∧
    ((finishSyncRun (applyRunLogs (newSyncRun b p) entries) outcome now).status = "error" ↔
      ∃ e, outcome = .error e) := by
  refine ⟨rfl, applyRunLogs_status entries _, ?_, ?_⟩
  · cases outcome with
    | ok c => exact Or.inl rfl
    | error e => exact Or.inr rfl
  · cases outcome with
    | ok c =>
      constructor
      · intro h
        have hs : (finishSyncRun (applyRunLogs (newSyncRun b p) entries)
            (Except.ok c) now).status = "success" := rfl
        rw [hs] at h
        exact absurd h (by decide)
      · rintro ⟨e, he⟩; cases he
    | error e =>
      exact ⟨fun _ => ⟨e, rfl⟩, fun _ => rfl⟩

/-! ### Fixtures for the update-step claims -/

/-- A lane of the demo board. -/
def exLaneA : Lane :=
  { id := "lane-2", boardId := "board-1", name := "Doing", stateKey := "doing",
    type := "active", position := 1 }

/-- A linked task whose local copy was not modified since the last sync. -/
def exTaskA : Task :=
  { id := "task-a", boardId := "board-1", laneId := "lane-1",
    stateKey := "backlog", title := "old title", description := "",
    ownerId := none, priority := "P2", type := "Feature", tags := [],
    dueDate := none, blocked := false, blockedReason := none,
    jiraKey := some "PROJ-1", jiraUrl := none, jiraConnectionId := none,
    jiraSyncEnabled := true, jiraProjectKey := none, jiraIssueType := none,
    jiraUpdatedAt := none, jiraLastSyncAt := some 50, orderIndex := 0,
    version := 3, createdAt := 0, updatedAt := 10 }

/-- A mapped remote snapshot that differs from `exTaskA`. -/
def exMappedA : MappedIssue :=
  { keyDisp := "PROJ-1", summary := some "new title", stateKey := "doing",
    lane := exLaneA, mappedPriority := "P1", mappedType := "Bug",
    labels := ["lbl"], dueDt := some 99, jiraUpdatedDt := some 40,
    jiraUrl := some "https://j/browse/PROJ-1" }

/-- A linked task modified locally after the last sync (`updatedAt > lastSync`). -/
def exTaskB : Task :=
  { id := "task-b", boardId := "board-1", laneId := "lane-1",
    stateKey := "backlog", title := "local title", description := "",
    ownerId := none, priority := "P2", type := "Feature", tags := [],
    dueDate := none, blocked := false, blockedReason := none,
    jiraKey := some "PROJ-2", jiraUrl := none, jiraConnectionId := none,
    jiraSyncEnabled := true, jiraProjectKey := none, jiraIssueType := none,
    jiraUpdatedAt := none, jiraLastSyncAt := some 50, orderIndex := 0,
    version := 4, createdAt := 0, updatedAt := 60 }

/-- A mapped remote snapshot also modified after the last sync. -/
def exMappedB : MappedIssue :=
  { keyDisp := "PROJ-2", summary := some "remote title", stateKey := "doing",
    lane := exLaneA, mappedPriority := "P0", mappedType := "Bug",
    labels := [], dueDt := none, jiraUpdatedDt := some 70,
    jiraUrl := some "https://j/browse/PROJ-2" }

/-- C1 (counterexample): with declared policy `"manual"` the update step
leaves the existing task untouched and does not count an update, although the
remote snapshot differs — so the applied policy is not "always remote wins
regardless of the declared value", and the update step does branch on the
policy. -/
theorem C1_counterexample_manual_policy_skips_update :
    (updateExistingTask "manual" "PROJ-1" exTaskA exMappedA 100).task = exTaskA ∧
    (updateExistingTask "manual" "PROJ-1" exTaskA exMappedA 100).updatedDelta = 0 ∧
    exTaskA.title ≠ exMappedA.summary.getD "" := by decide

/-- C1 (amended): the update step applies the remote snapshot (title,
priority, type, tags, due date, external url/timestamp, lane/state if
changed) exactly when the profile's conflict policy is `"jiraWins"`; for any
other declared policy (`"appWins"`, `"manual"`, …) the existing task is left
unmodified and the updated counter is not incremented. -/
theorem C1_update_applies_snapshot_only_under_jiraWins
    (policy keyDisp : String) (t : Task) (m : MappedIssue) (now : Int) :
    ((updateExistingTask "jiraWins" keyDisp t m now).task.title = m.summary.getD "" ∧
     (updateExistingTask "jiraWins" keyDisp t m now).task.priority = m.mappedPriority ∧
     (updateExistingTask "jiraWins" keyDisp t m now).task.type = m.mappedType ∧
     (updateExistingTask "jiraWins" keyDisp t m now).task.tags = m.labels ∧
     (updateExistingTask "jiraWins" keyDisp t m now).task.dueDate = m.dueDt ∧
     (updateExistingTask "jiraWins" keyDisp t m now).task.jiraUrl = m.jiraUrl ∧
     (updateExistingTask "jiraWins" keyDisp t m now).task.jiraUpdatedAt = m.jiraUpdatedDt ∧
     (updateExistingTask "jiraWins" keyDisp t m now).task.jiraLastSyncAt = some now ∧
     (updateExistingTask "jiraWins" keyDisp t m now).task.version = t.version + 1 ∧
     (updateExistingTask "jiraWins" keyDisp t m now).updatedDelta = 1 ∧
     (t.laneId ≠ m.lane.id →
       (updateExistingTask "jiraWins" keyDisp t m now).task.laneId = m.lane.id ∧
       (updateExistingTask "jiraWins" keyDisp t m now).task.stateKey = m.stateKey)) ∧
    (policy ≠ "jiraWins" →
      (updateExistingTask policy keyDisp t m now).task = t ∧
      (updateExistingTask policy keyDisp t m now).updatedDelta = 0) := by
  constructor
  · unfold updateExistingTask
    by_cases hl : t.laneId ≠ m.lane.id <;> simp [hl]
  · intro hp
    unfold updateExistingTask
    simp [hp]

/-- C1 witness. -/
theorem C1_witness :
    (updateExistingTask "jiraWins" "PROJ-1" exTaskA exMappedA 100).task.title = "new title" ∧
    (updateExistingTask "manual" "PROJ-1" exTaskA exMappedA 100).task = exTaskA := by
  have h := C1_update_applies_snapshot_only_under_jiraWins "manual" "PROJ-1"
    exTaskA exMappedA 100
  exact ⟨h.1.1, (h.2 (by decide)).1⟩

/-- C5 (counterexample): with declared policy `"manual"` and both sides
changed after the last sync, the conflict counter increments and the warning
is logged, but the remote snapshot is *not* applied — refuting the claim's
"still applies the remote snapshot onto the local task" for every run. -/
theorem C5_counterexample_manual_policy_conflict_without_update :
    (updateExistingTask "manual" "PROJ-2" exTaskB exMappedB 100).conflictsDelta = 1 ∧
    (⟨100, "warn", "Conflict on PROJ-2 (policy=manual)"⟩ : LogEntry) ∈
      (updateExistingTask "manual" "PROJ-2" exTaskB exMappedB 100).logs ∧
    (updateExistingTask "manual" "PROJ-2" exTaskB exMappedB 100).task = exTaskB ∧
    exTaskB.title ≠ exMappedB.summary.getD "" := by decide

/-- C5 (amended): for every existing linked task whose local `updatedAt` and
remote `updated` timestamps are both strictly after the non-null
`jira_last_sync_at`, the update step counts exactly one conflict and logs a
warning naming the external key and the active policy; the remote snapshot
is applied exactly when the policy is `"jiraWins"`. -/
theorem C5_conflict_counted_and_logged (policy keyDisp : String) (t : Task)
    (m : MappedIssue) (now ls ju : Int)
    (h1 : t.jiraLastSyncAt = some ls) (h2 : ls < t.updatedAt)
    (h3 : m.jiraUpdatedDt = some ju) (h4 : ls < ju) :
    (updateExistingTask policy keyDisp t m now).conflictsDelta = 1 ∧
    (⟨now, "warn", "Conflict on " ++ keyDisp ++ " (policy=" ++ policy ++ ")"⟩ : LogEntry) ∈
      (updateExistingTask policy keyDisp t m now).logs ∧
    (policy = "jiraWins" →
      (updateExistingTask policy keyDisp t m now).task.title = m.summary.getD "" ∧
      (updateExistingTask policy keyDisp t m now).updatedDelta = 1) ∧
    (policy ≠ "jiraWins" →
      (updateExistingTask policy keyDisp t m now).task = t ∧
      (updateExistingTask policy keyDisp t m now).updatedDelta = 0) := by
  unfold updateExistingTask
  rw [h1, h3]
  by_cases hp : policy = "jiraWins" <;> by_cases hl : t.laneId = m.lane.id <;>
    simp [hp, hl, h2, h4]

/-- C5 witness. -/
theorem C5_witness :
    (updateExistingTask "jiraWins" "PROJ-2" exTaskB exMappedB 100).conflictsDelta = 1 ∧
    (updateExistingTask "jiraWins" "PROJ-2" exTaskB exMappedB 100).updatedDelta = 1 := by
  have h := C5_conflict_counted_and_logged "jiraWins" "PROJ-2" exTaskB exMappedB
    100 50 70 rfl (by decide) rfl (by decide)
  exact ⟨h.1, (h.2.2.1 rfl).2⟩

/-- Helper: when the local side did not change since the last sync, the
update step counts no conflict, whatever the remote side did. -/
theorem updateExistingTask_no_conflict (policy keyDisp : String) (t : Task)
    (m : MappedIssue) (now ls : Int) (hls : t.jiraLastSyncAt = some ls)
    (hu : t.updatedAt ≤ ls) :
    (updateExistingTask policy keyDisp t m now).conflictsDelta = 0 ∧
    (updateExistingTask policy keyDisp t m now).logs =
      (if policy = "jiraWins"
        then [⟨now, "info", "Updated " ++ keyDisp ++ " -> " ++ t.id⟩] else []) := by
  unfold updateExistingTask
  rw [hls]
  have hdec : decide (ls < t.updatedAt) = false :=
    decide_eq_false (not_lt.mpr hu)
  by_cases hp : policy = "jiraWins" <;> simp [hp, hdec]

/-- C9: when more than one task of the board carries the remote record's
external key, the per-record step increments the conflict counter by one and
logs the duplicate-mapping warning even though neither side changed since the
last sync — duplicate mappings and genuine edit conflicts share one counter. -/
theorem C9_duplicate_key_counts_as_conflict (profile : JiraSyncProfile)
    (lanes : List Lane) (backlogLane : Lane) (baseUrl : String) (now : Int)
    (newTaskId : String) (db : List Task) (issue : JiraIssue) (t1 t2 : Task)
    (rest : List Task) (ls : Int)
    (hm : taskMatches db profile.boardId issue.key = t1 :: t2 :: rest)
    (hls : t1.jiraLastSyncAt = some ls) (hu : t1.updatedAt ≤ ls)
    (hju : ∀ ju, issue.fields.updated = some ju → ju ≤ ls) :
    (processIssue profile lanes backlogLane baseUrl now newTaskId db issue).conflictsDelta = 1 ∧
    (⟨now, "warn", "Duplicate Jira key mapping detected for " ++
        pyShowOpt issue.key ++ "; using task " ++ t1.id⟩ : LogEntry) ∈
      (processIssue profile lanes backlogLane baseUrl now newTaskId db issue).logs ∧
    (processIssue profile lanes backlogLane baseUrl now newTaskId db issue).importedDelta = 0 := by
  have hnc := updateExistingTask_no_conflict profile.conflictPolicy
    (mapIssue profile lanes backlogLane baseUrl issue).keyDisp t1
    (mapIssue profile lanes backlogLane baseUrl issue) now ls hls hu
  unfold processIssue
  rw [hm]
  simp only [List.length_cons, List.head?_cons]
  have hlen : rest.length + 1 + 1 > 1 := by omega
  have hkd : (mapIssue profile lanes backlogLane baseUrl issue).keyDisp =
      pyShowOpt issue.key := by
    unfold mapIssue
    cases h0 : (if pyOrDefault
        (profile.statusToStateKey.lookup (pyOrDefault issue.fields.statusName "")) "" ≠ ""
      then laneByStateKey lanes (pyOrDefault
        (profile.statusToStateKey.lookup (pyOrDefault issue.fields.statusName "")) "")
      else none) <;> simp [h0]
  rw [hkd] at hnc
  simp [hlen, hnc.1, hnc.2, hkd]

/-! ### C9 witness fixtures -/

/-- First duplicate (more recently updated, picked as canonical). -/
def exDupTask1 : Task :=
  { id := "dup-1", boardId := "board-1", laneId := "lane-1",
    stateKey := "backlog", title := "d1", description := "", ownerId := none,
    priority := "P2", type := "Feature", tags := [], dueDate := none,
    blocked := false, blockedReason := none, jiraKey := some "DUP-1",
    jiraUrl := none, jiraConnectionId := none, jiraSyncEnabled := true,
    jiraProjectKey := none, jiraIssueType := none, jiraUpdatedAt := none,
    jiraLastSyncAt := some 50, orderIndex := 0, version := 0, createdAt := 0,
    updatedAt := 10 }

/-- Second duplicate with the same external key. -/
def exDupTask2 : Task :=
  { id := "dup-2", boardId := "board-1", laneId := "lane-1",
    stateKey := "backlog", title := "d2", description := "", ownerId := none,
    priority := "P2", type := "Feature", tags := [], dueDate := none,
    blocked := false, blockedReason := none, jiraKey := some "DUP-1",
    jiraUrl := none, jiraConnectionId := none, jiraSyncEnabled := true,
    jiraProjectKey := none, jiraIssueType := none, jiraUpdatedAt := none,
    jiraLastSyncAt := some 50, orderIndex := 1, version := 0, createdAt := 0,
    updatedAt := 5 }

/-- A remote record bearing the duplicated key, unchanged since last sync. -/
def exDupIssue : JiraIssue :=
  { key := some "DUP-1",
    fields := { summary := some "d1", statusName := none, priorityName := none,
                issuetypeName := none, labels := [], duedate := none,
                updated := some 40 } }

/-- The profile of the demo board. -/
def exProfileA : JiraSyncProfile :=
  { boardId := "board-1", connectionId := "conn-1", jql := "project = X",
    statusToStateKey := [], priorityMap := [], typeMap := [],
    conflictPolicy := "jiraWins" }

/-- C9 witness. -/
theorem C9_witness :
    (processIssue exProfileA [exLaneA] exLaneA "https://j" 100 "new-id"
      [exDupTask1, exDupTask2] exDupIssue).conflictsDelta = 1 ∧
    (processIssue exProfileA [exLaneA] exLaneA "https://j" 100 "new-id"
      [exDupTask1, exDupTask2] exDupIssue).importedDelta = 0 := by
  have h := C9_duplicate_key_counts_as_conflict exProfileA [exLaneA] exLaneA
    "https://j" 100 "new-id" [exDupTask1, exDupTask2] exDupIssue
    exDupTask1 exDupTask2 [] 50 (by decide) rfl (by decide)
    (by intro ju hju; simp [exDupIssue] at hju; omega)
  exact ⟨h.1, h.2.2⟩

/-- Helper: a task that already carries an external key makes
`create_jira_issue_from_task` a pure no-op with no outbound calls. -/
theorem createLink_noop_of_linked (task : Task) (conn : JiraConnection)
    (pk : String) (it : Option String) (es : Bool) (am : String)
    (sd : Option String) (ow : Option UserRec)
    (us : Except Unit (List (Option String))) (ms : Except Unit SearchData)
    (rc : CreateIssueReq → CreateOutcome) (sa : Option String → Bool)
    (now : Int) (h : pyTruthy task.jiraKey = true) :
    createJiraIssueFromTask task conn pk it es am sd ow us ms rc sa now =
      { result := .ok task, searchCalls := [], createCalls := [],
        setAssigneeCalls := [], audits := [] } := by
  unfold createJiraIssueFromTask
  simp [h]

/-- Helper: every successfully returned task of
`create_jira_issue_from_task` carries a truthy external key. -/
theorem createLink_ok_truthy (task : Task) (conn : JiraConnection)
    (pk : String) (it : Option String) (es : Bool) (am : String)
    (sd : Option String) (ow : Option UserRec)
    (us : Except Unit (List (Option String))) (ms : Except Unit SearchData)
    (rc : CreateIssueReq → CreateOutcome) (sa : Option String → Bool)
    (now : Int) (t2 : Task)
    (h : (createJiraIssueFromTask task conn pk it es am sd ow us ms rc sa now).result = .ok t2) :
    pyTruthy t2.jiraKey = true := by
  simp only [createJiraIssueFromTask] at h
  split at h
  · next hk =>
    simp only [Except.ok.injEq] at h
    subst h
    exact hk
  · split at h
    · next t heq =>
      simp only [Except.ok.injEq] at h
      subst h
      split at heq
      · cases heq
      · split at heq
        · cases heq
        · next first _ =>
          split at heq
          · next hfk =>
            simp only [Option.some.injEq] at heq
            subst heq
            simpa using hfk
          · cases heq
    · split at h
      · simp at h
      · next createdKey calls hcr =>
        split at h
        · next hck =>
          simp only [Except.ok.injEq] at h
          subst h
          cases createdKey with
          | none => simp [pyTruthy] at hck
          | some s =>
            simp only [pyTruthy, Option.getD_some] at hck ⊢
            simpa using hck
        · simp at h

/-- C2: create-and-link never produces a second external record — a task
with an external key short-circuits to a no-op with no outbound calls; a
task whose key was cleared relinks to the record found by the marker search
(bounded to 2 results) without any create call; and whatever a successful
call returned, an immediately repeated call is a no-op returning the linked
state. -/
theorem C2_create_and_link_idempotent (task : Task) (conn : JiraConnection)
    (pk : String) (it : Option String) (es : Bool) (am : String)
    (sd : Option String) (ow : Option UserRec)
    (us : Except Unit (List (Option String))) (ms : Except Unit SearchData)
    (rc : CreateIssueReq → CreateOutcome) (sa : Option String → Bool)
    (now : Int) :
    (pyTruthy task.jiraKey = true →
      createJiraIssueFromTask task conn pk it es am sd ow us ms rc sa now =
        { result := .ok task, searchCalls := [], createCalls := [],
          setAssigneeCalls := [], audits := [] }) ∧
    (∀ found first, pyTruthy task.jiraKey = false → ms = .ok found →
      found.issues.head? = some first → pyTruthy first.key = true →
      (createJiraIssueFromTask task conn pk it es am sd ow us ms rc sa now).createCalls = [] ∧
      (createJiraIssueFromTask task conn pk it es am sd ow us ms rc sa now).searchCalls =
        [("labels = \"" ++ ("task-daddy-task-" ++ task.id) ++ "\"", 2)] ∧
      (createJiraIssueFromTask task conn pk it es am sd ow us ms rc sa now).result =
        .ok { task with
              jiraConnectionId := some conn.id,
              jiraKey := first.key,
              jiraUrl := some (rstripSlash conn.baseUrl ++ "/browse/" ++ first.key.getD ""),
              jiraSyncEnabled := es,
              jiraProjectKey := some pk,
              jiraIssueType := some (pyOrDefault it "Task"),
              jiraLastSyncAt := some now,
              version := task.version + 1,
              updatedAt := now }) ∧
    (∀ t2 conn2 pk2 it2 es2 am2 sd2 ow2 us2 ms2 rc2 sa2 now2,
      (createJiraIssueFromTask task conn pk it es am sd ow us ms rc sa now).result = .ok t2 →
      createJiraIssueFromTask t2 conn2 pk2 it2 es2 am2 sd2 ow2 us2 ms2 rc2 sa2 now2 =
        { result := .ok t2, searchCalls := [], createCalls := [],
          setAssigneeCalls := [], audits := [] }) := by
  refine ⟨?_, ?_, ?_⟩
  · intro h
    exact createLink_noop_of_linked task conn pk it es am sd ow us ms rc sa now h
  · intro found first hk hms hhead hfk
    unfold createJiraIssueFromTask
    simp [hk, hms, hhead, hfk]
  · intro t2 conn2 pk2 it2 es2 am2 sd2 ow2 us2 ms2 rc2 sa2 now2 h
    exact createLink_noop_of_linked t2 conn2 pk2 it2 es2 am2 sd2 ow2 us2 ms2
      rc2 sa2 now2
      (createLink_ok_truthy task conn pk it es am sd ow us ms rc sa now t2 h)

/-! ### Fixtures for the create-and-link claims -/

/-- A connection fixture. -/
def exConnA : JiraConnection :=
  { id := "conn-1", baseUrl := "https://jira.example.com", email := some "a@b",
    defaultAssigneeAccountId := some "acc-1" }

/-- An unlinked task (external key cleared). -/
def exUnlinkedTask : Task :=
  { id := "task-u", boardId := "board-1", laneId := "lane-1",
    stateKey := "backlog", title := "orphan", description := "",
    ownerId := none, priority := "P1", type := "Feature", tags := ["My Tag!"],
    dueDate := none, blocked := false, blockedReason := none, jiraKey := none,
    jiraUrl := none, jiraConnectionId := none, jiraSyncEnabled := false,
    jiraProjectKey := none, jiraIssueType := none, jiraUpdatedAt := none,
    jiraLastSyncAt := none, orderIndex := 0, version := 0, createdAt := 0,
    updatedAt := 0 }

/-- A remote record still bearing the idempotency marker. -/
def exFoundIssue : JiraIssue :=
  { key := some "REC-7",
    fields := { summary := some "orphan", statusName := none,
                priorityName := none, issuetypeName := none, labels := [],
                duedate := none, updated := none } }

/-- The marker-search response that finds `exFoundIssue`. -/
def exFoundData : SearchData :=
  { issues := [exFoundIssue], nextPageToken := none, isLast := some true,
    startAt := none, total := none }

/-- C2 witness. -/
theorem C2_witness :
    createJiraIssueFromTask exTaskA exConnA "PROJ" none true "unassigned" none
        none (.ok []) (.error ()) (fun _ => .ok (some "K-1")) (fun _ => true) 0 =
      { result := .ok exTaskA, searchCalls := [], createCalls := [],
        setAssigneeCalls := [], audits := [] } ∧
    (createJiraIssueFromTask exUnlinkedTask exConnA "PROJ" none true
        "unassigned" none none (.ok []) (.ok exFoundData)
        (fun _ => .ok (some "K-1")) (fun _ => true) 7).createCalls = [] := by
  refine ⟨(C2_create_and_link_idempotent exTaskA exConnA "PROJ" none true
      "unassigned" none none (.ok []) (.error ())
      (fun _ => .ok (some "K-1")) (fun _ => true) 0).1 (by decide), ?_⟩
  exact ((C2_create_and_link_idempotent exUnlinkedTask exConnA "PROJ" none true
      "unassigned" none none (.ok []) (.ok exFoundData)
      (fun _ => .ok (some "K-1")) (fun _ => true) 7).2.1 exFoundData
      exFoundIssue (by decide) rfl rfl (by decide)).1

/-- C6: against a remote system that rejects any create request carrying a
priority with 400 and any carrying an assignee with 400, the fallback chain
attempts the full request, then the request without priority, then the
request without priority and assignee, succeeds, and every attempt appears
in the outbound-call trace. -/
theorem C6_create_400_fallback_chain (task : Task) (conn : JiraConnection)
    (pk : String) (it : Option String) (es : Bool) (sd : Option String)
    (ow : Option UserRec) (us : Except Unit (List (Option String)))
    (found : SearchData) (rc : CreateIssueReq → CreateOutcome)
    (sa : Option String → Bool) (now : Int) (goodKey : String)
    (hk : pyTruthy task.jiraKey = false) (hfi : found.issues = [])
    (hcd : pyStripString (conn.defaultAssigneeAccountId.getD "") ≠ "")
    (hrej1 : ∀ r : CreateIssueReq, r.priorityName.isSome → rc r = .apiError 400)
    (hrej2 : ∀ r : CreateIssueReq, r.priorityName = none →
      r.assigneeAccountId.isSome → rc r = .apiError 400)
    (hok : ∀ r : CreateIssueReq, r.priorityName = none →
      r.assigneeAccountId = none → rc r = .ok (some goodKey))
    (hgk : goodKey ≠ "") :
    ∃ req : CreateIssueReq,
      (createJiraIssueFromTask task conn pk it es "connectionDefault" sd ow us
          (.ok found) rc sa now).createCalls =
        [req, { req with priorityName := none },
          { req with priorityName := none, assigneeAccountId := none }] ∧
      req.priorityName = some (jiraPriorityOf task.priority) ∧
      req.assigneeAccountId =
        some (pyStripString (conn.defaultAssigneeAccountId.getD "")) ∧
      ∃ t, (createJiraIssueFromTask task conn pk it es "connectionDefault" sd
          ow us (.ok found) rc sa now).result = .ok t ∧
        t.jiraKey = some goodKey := by
  have hres : resolveAssigneeAccountId "connectionDefault"
      conn.defaultAssigneeAccountId sd task.ownerId ow us =
      some (pyStripString (conn.defaultAssigneeAccountId.getD "")) := by
    unfold resolveAssigneeAccountId
    have h1 : ¬("connectionDefault" = "unassigned" ∨
        "connectionDefault" = "projectDefault") := by decide
    rw [if_neg h1, if_pos rfl, if_pos hcd]
  unfold createJiraIssueFromTask
  rw [hk]
  simp only [Bool.false_eq_true, if_false, hfi, List.head?_nil, hres]
  set req : CreateIssueReq :=
    { projectKey := pk, summary := task.title, description := task.description,
      issueType := pyOrDefault it "Task",
      labels := ((task.tags.filterMap jiraLabelize) ++
        ["task-daddy", "task-daddy-task-" ++ task.id]).dedup,
      priorityName := some (jiraPriorityOf task.priority),
      assigneeAccountId :=
        some (pyStripString (conn.defaultAssigneeAccountId.getD "")) } with hreq
  have h1 : rc req = .apiError 400 := hrej1 req (by simp [hreq])
  have h2 : rc { req with priorityName := none } = .apiError 400 :=
    hrej2 _ rfl (by simp [hreq])
  have h3 : rc { req with priorityName := none, assigneeAccountId := none } =
      .ok (some goodKey) := hok _ rfl rfl
  have hchain : createWithRetries rc req =
      (.ok (some goodKey), [req, { req with priorityName := none },
        { req with priorityName := none, assigneeAccountId := none }]) := by
    unfold createWithRetries
    simp [h1, h2, h3]
  rw [hchain]
  simp only [pyTruthy, hgk, ne_eq, not_false_eq_true, if_true]
  refine ⟨req, ?_, rfl, rfl, ?_⟩
  · simp
  · exact ⟨_, rfl, by simp⟩

/-- A remote create endpoint that rejects priority and assignee with 400. -/
def rcDemo : CreateIssueReq → CreateOutcome := fun r =>
  if r.priorityName.isSome then .apiError 400
  else if r.assigneeAccountId.isSome then .apiError 400
  else .ok (some "NEW-1")

/-- An empty marker-search response. -/
def exEmptyFound : SearchData :=
  { issues := [], nextPageToken := none, isLast := some true, startAt := none,
    total := none }

/-- C6 witness. -/
theorem C6_witness :
    ∃ req : CreateIssueReq,
      (createJiraIssueFromTask exUnlinkedTask exConnA "PROJ" none true
          "connectionDefault" none none (.ok []) (.ok exEmptyFound) rcDemo
          (fun _ => true) 3).createCalls =
        [req, { req with priorityName := none },
          { req with priorityName := none, assigneeAccountId := none }] ∧
      req.priorityName = some (jiraPriorityOf exUnlinkedTask.priority) ∧
      req.assigneeAccountId =
        some (pyStripString (exConnA.defaultAssigneeAccountId.getD "")) ∧
      ∃ t, (createJiraIssueFromTask exUnlinkedTask exConnA "PROJ" none true
          "connectionDefault" none none (.ok []) (.ok exEmptyFound) rcDemo
          (fun _ => true) 3).result = .ok t ∧
        t.jiraKey = some "NEW-1" :=
  C6_create_400_fallback_chain exUnlinkedTask exConnA "PROJ" none true none
    none (.ok []) exEmptyFound rcDemo (fun _ => true) 3 "NEW-1" (by decide)
    rfl (by decide)
    (fun r h => by simp [rcDemo, h])
    (fun r h1 h2 => by simp [rcDemo, h1, h2])
    (fun r h1 h2 => by simp [rcDemo, h1, h2])
    (by decide)

/-! ### Pagination lemmas for C4 -/

/-- Length of the opaque page token. -/
theorem pageToken_length (i : Nat) : (pageToken i).length = i := by
  simp [pageToken, String.length]

/-- Tokens of nonzero pages are truthy. -/
theorem pageToken_ne_empty (i : Nat) : pageToken (i + 1) ≠ "" := by
  intro h
  have := congrArg String.length h
  simp [pageToken_length] at this

/-- The fetch loop over a token-paginated result set of nonempty pages,
started at page `i`, processes exactly the remaining pages in order and
stops. -/
theorem syncFetchLoop_pageApi (pages : List (List JiraIssue))
    (hne : ∀ p ∈ pages, p ≠ []) :
    ∀ fuel i acc, pages.length - i + 1 ≤ fuel →
      syncFetchLoop (pageApi pages) fuel
        (if i = 0 then none else some (pageToken i)) acc =
      some (.done (acc ++ (pages.drop i).flatten)) := by
  intro fuel
  induction fuel with
  | zero => intro i acc h; omega
  | succ fuel ih =>
    intro i acc h
    have hdec : (match (if i = 0 then none else some (pageToken i)) with
        | none => 0
        | some s => s.length) = i := by
      by_cases h0 : i = 0 <;> simp [h0, pageToken_length]
    rw [syncFetchLoop]
    cases hpg : pages.get? i with
    | none =>
      have hdrop : pages.drop i = [] :=
        List.drop_eq_nil_of_le (List.get?_eq_none.mp hpg)
      have hpg2 : pages[i]? = none := by
        rw [← List.get?_eq_getElem?]; exact hpg
      have hfetch : pageApi pages (if i = 0 then none else some (pageToken i)) =
          .ok { issues := [], nextPageToken := none, isLast := some true,
                startAt := none, total := none } := by
        unfold pageApi
        rw [hdec]
        simp only [hpg]
      rw [hfetch]
      simp [hdrop]
    | some pg =>
      have hpg2 : pages[i]? = some pg := by
        rw [← List.get?_eq_getElem?]; exact hpg
      have hmem : pg ∈ pages := List.get?_mem hpg
      have hpgne : pg ≠ [] := hne pg hmem
      have hi : i < pages.length := List.get?_eq_some.mp hpg |>.fst
      have hdropi : pages.drop i = pg :: pages.drop (i + 1) := by
        rw [List.drop_eq_getElem_cons hi]
        have hgl : pages[i] = pg := by
          have hg := List.get?_eq_get hi
          rw [hpg] at hg
          exact (Option.some.injEq _ _ ▸ hg.symm)
        rw [hgl]
      have hfetch : pageApi pages (if i = 0 then none else some (pageToken i)) =
          .ok { issues := pg,
                nextPageToken :=
                  if i + 1 < pages.length then some (pageToken (i + 1)) else none,
                isLast := some (decide (pages.length ≤ i + 1)),
                startAt := none, total := none } := by
        unfold pageApi
        rw [hdec]
        simp only [hpg]
      rw [hfetch]
      by_cases hlt : i + 1 < pages.length
      · have hlast : decide (pages.length ≤ i + 1) = false := by
          simp; omega
        have htok : tokTruthy (some (pageToken (i + 1))) = true := by
          simp [tokTruthy, pageToken_ne_empty]
        have hrec := ih (i + 1) (acc ++ pg) (by omega)
        rw [if_neg (Nat.succ_ne_zero i)] at hrec
        simp only [hlast, if_pos hlt, htok]
        rw [if_neg (by simpa using hpgne)]
        rw [if_neg (by simp)]
        rw [hrec, hdropi]
        simp
      · have hlast : decide (pages.length ≤ i + 1) = true := by
          simp; omega
        have hdrop1 : pages.drop (i + 1) = [] :=
          List.drop_eq_nil_of_le (by omega)
        simp only [hlast, if_neg hlt]
        rw [if_neg (by simpa using hpgne)]
        rw [if_pos (by simp)]
        rw [hdropi, hdrop1]
        simp

/-! ### C4 fixtures -/

/-- A one-record result set served only by the legacy endpoint: the
preferred endpoint is retired (410) for this tenant. -/
def exIssueC4 : JiraIssue :=
  { key := some "L-1",
    fields := { summary := some "legacy record", statusName := none,
                priorityName := none, issuetypeName := none, labels := [],
                duedate := none, updated := none } }

/-- The legacy-only tenant API. -/
def legacyOnlyApi : JiraSearchApi :=
  { searchJql := fun _ => .error 410,
    searchLegacy := fun s =>
      .ok { issues := if s = 0 then [exIssueC4] else [],
            nextPageToken := none, isLast := none, startAt := some s,
            total := some 1 } }

/-- C4 (counterexample): on a tenant whose preferred endpoint returns 410,
the sync run's pagination loop fails with that error instead of retrying the
legacy endpoint — the one-page legacy result set is never processed — and
even the `jira_search` helper returns the legacy response untranslated
(offset shape, no token fields). -/
theorem C4_counterexample_sync_loop_has_no_legacy_fallback :
    syncFetchLoop legacyOnlyApi.searchJql 5 none [] = some (.failed 410) ∧
    jiraSearch legacyOnlyApi 0 =
      .ok { issues := [exIssueC4], nextPageToken := none, isLast := none,
            startAt := some 0, total := some 1 } := by
  constructor <;> rfl

/-- C4 (amended): the compatibility helper `jira_search` retries the legacy
offset endpoint exactly on 404/410 and returns its response unchanged (no
pagination-style translation), propagating other errors and passing through
successes; the sync run's pagination loop calls the token-based endpoint
directly with no legacy fallback, and over a token-paginated result set of N
nonempty pages it processes all N pages exactly once, in order, and
terminates. -/
theorem C4_search_fallback_and_pagination (api : JiraSearchApi) (s : Nat)
    (c : Nat) (d : SearchData) (pages : List (List JiraIssue)) (fuel : Nat) :
    (api.searchJql none = .ok d → jiraSearch api s = .ok d) ∧
    (api.searchJql none = .error c → (c = 404 ∨ c = 410) →
      jiraSearch api s = api.searchLegacy s) ∧
    (api.searchJql none = .error c → ¬(c = 404 ∨ c = 410) →
      jiraSearch api s = .error c) ∧
    ((∀ p ∈ pages, p ≠ []) → pages.length + 1 ≤ fuel →
      syncFetchLoop (pageApi pages) fuel none [] = some (.done pages.flatten)) := by
  refine ⟨?_, ?_, ?_, ?_⟩
  · intro h
    unfold jiraSearch
    rw [h]
  · intro h hc
    unfold jiraSearch
    rw [h]
    exact if_pos hc
  · intro h hc
    unfold jiraSearch
    rw [h]
    exact if_neg hc
  · intro hne hfuel
    have := syncFetchLoop_pageApi pages hne fuel 0 [] (by omega)
    simpa using this

/-- C4 witness. -/
theorem C4_witness :
    jiraSearch legacyOnlyApi 3 = legacyOnlyApi.searchLegacy 3 ∧
    syncFetchLoop (pageApi [[exIssueC4], [exFoundIssue]]) 3 none [] =
      some (.done ([[exIssueC4], [exFoundIssue]] : List (List JiraIssue)).flatten) := by
  constructor
  · exact (C4_search_fallback_and_pagination legacyOnlyApi 3 410
      exEmptyFound [] 0).2.1 rfl (Or.inr rfl)
  · exact (C4_search_fallback_and_pagination legacyOnlyApi 3 410 exEmptyFound
      [[exIssueC4], [exFoundIssue]] 3).2.2.2 (by decide) (by decide)

/-! ### Comment-bridge lemmas for C3 -/

/-- Unfolding of the remote-id list over one comment. -/
theorem jiraCommentIds_cons (cm : JiraComment) (rest : List JiraComment) :
    jiraCommentIds (cm :: rest) =
      (match cm.id with
       | some s => if pyStripString s = "" then jiraCommentIds rest
           else pyStripString s :: jiraCommentIds rest
       | none => jiraCommentIds rest) := by
  cases hcid : cm.id with
  | none => simp [jiraCommentIds, List.filterMap_cons, hcid]
  | some raw =>
    by_cases hn : pyStripString raw = "" <;>
      simp [jiraCommentIds, List.filterMap_cons, hcid, hn]

/-- Every row the import loop inserts belongs to this task, is tagged
`source = "jira"`, and carries a nonempty source id drawn from the remote
id list. -/
theorem importLoop_inserted_fields (task : Task) (botId : String) (now : Int) :
    ∀ (remote : List JiraComment) (E : List String) (c : CommentRec),
      c ∈ (importCommentsLoop task botId now E remote).1 →
      c.taskId = task.id ∧ c.source = "jira" ∧
        ∃ n, c.sourceId = some n ∧ n ≠ "" ∧ n ∈ jiraCommentIds remote := by
  intro remote
  induction remote with
  | nil => intro E c hc; simp [importCommentsLoop] at hc
  | cons cm rest ih =>
    intro E c hc
    have hsub : ∀ n, n ∈ jiraCommentIds rest → n ∈ jiraCommentIds (cm :: rest) := by
      intro n hn
      rw [jiraCommentIds_cons]
      cases cm.id with
      | none => exact hn
      | some raw =>
        by_cases h : pyStripString raw = "" <;> simp [h, hn]
    cases hcid : cm.id with
    | none =>
      rw [show importCommentsLoop task botId now E (cm :: rest) =
          importCommentsLoop task botId now E rest by
        simp [importCommentsLoop, hcid]] at hc
      obtain ⟨h1, h2, n, h3, h4, h5⟩ := ih E c hc
      exact ⟨h1, h2, n, h3, h4, hsub n h5⟩
    | some raw =>
      by_cases hn : pyStripString raw = ""
      · rw [show importCommentsLoop task botId now E (cm :: rest) =
            importCommentsLoop task botId now E rest by
          simp [importCommentsLoop, hcid, hn]] at hc
        obtain ⟨h1, h2, n, h3, h4, h5⟩ := ih E c hc
        exact ⟨h1, h2, n, h3, h4, hsub n h5⟩
      · by_cases hmem : pyStripString raw ∈ E
        · rw [show importCommentsLoop task botId now E (cm :: rest) =
              importCommentsLoop task botId now E rest by
            simp [importCommentsLoop, hcid, hn, hmem]] at hc
          obtain ⟨h1, h2, n, h3, h4, h5⟩ := ih E c hc
          exact ⟨h1, h2, n, h3, h4, hsub n h5⟩
        · by_cases hb : normalizeCommentBody cm.bodyText = ""
          · rw [show importCommentsLoop task botId now E (cm :: rest) =
                importCommentsLoop task botId now E rest by
              simp [importCommentsLoop, hcid, hn, hmem, hb]] at hc
            obtain ⟨h1, h2, n, h3, h4, h5⟩ := ih E c hc
            exact ⟨h1, h2, n, h3, h4, hsub n h5⟩
          · rw [show importCommentsLoop task botId now E (cm :: rest) =
                (mkImportedComment task botId cm raw (pyStripString raw)
                    (normalizeCommentBody cm.bodyText) now ::
                  (importCommentsLoop task botId now (pyStripString raw :: E) rest).1,
                  (importCommentsLoop task botId now (pyStripString raw :: E) rest).2 + 1) by
              simp [importCommentsLoop, hcid, hn, hmem, hb]] at hc
            rcases List.mem_cons.mp hc with hh | ht
            · subst hh
              refine ⟨rfl, rfl, pyStripString raw, rfl, hn, ?_⟩
              rw [jiraCommentIds_cons, hcid]
              simp [hn]
            · obtain ⟨h1, h2, n, h3, h4, h5⟩ :=
                ih (pyStripString raw :: E) c ht
              exact ⟨h1, h2, n, h3, h4, hsub n h5⟩

/-- If the skip set of a second import run covers the first run's skip set
and everything the first run inserted, the second run inserts nothing. -/
theorem importLoop_all_skipped (task : Task) (botId : String) (now now2 : Int) :
    ∀ (remote : List JiraComment) (E E' : List String),
      (∀ x ∈ E, x ∈ E') →
      (∀ c ∈ (importCommentsLoop task botId now E remote).1,
        ∀ n, c.sourceId = some n → n ∈ E') →
      importCommentsLoop task botId now2 E' remote = ([], 0) := by
  intro remote
  induction remote with
  | nil => intro E E' _ _; rfl
  | cons cm rest ih =>
    intro E E' hEE hins
    cases hcid : cm.id with
    | none =>
      rw [show importCommentsLoop task botId now2 E' (cm :: rest) =
          importCommentsLoop task botId now2 E' rest by
        simp [importCommentsLoop, hcid]]
      refine ih E E' hEE ?_
      intro c hc n hn
      refine hins c ?_ n hn
      rw [show importCommentsLoop task botId now E (cm :: rest) =
          importCommentsLoop task botId now E rest by
        simp [importCommentsLoop, hcid]]
      exact hc
    | some raw =>
      by_cases hn : pyStripString raw = ""
      · rw [show importCommentsLoop task botId now2 E' (cm :: rest) =
            importCommentsLoop task botId now2 E' rest by
          simp [importCommentsLoop, hcid, hn]]
        refine ih E E' hEE ?_
        intro c hc n hcn
        refine hins c ?_ n hcn
        rw [show importCommentsLoop task botId now E (cm :: rest) =
            importCommentsLoop task botId now E rest by
          simp [importCommentsLoop, hcid, hn]]
        exact hc
      · by_cases hmem : pyStripString raw ∈ E
        · have hmem' : pyStripString raw ∈ E' := hEE _ hmem
          rw [show importCommentsLoop task botId now2 E' (cm :: rest) =
              importCommentsLoop task botId now2 E' rest by
            simp [importCommentsLoop, hcid, hn, hmem']]
          refine ih E E' hEE ?_
          intro c hc n hcn
          refine hins c ?_ n hcn
          rw [show importCommentsLoop task botId now E (cm :: rest) =
              importCommentsLoop task botId now E rest by
            simp [importCommentsLoop, hcid, hn, hmem]]
          exact hc
        · by_cases hb : normalizeCommentBody cm.bodyText = ""
          · have hfirst : importCommentsLoop task botId now E (cm :: rest) =
                importCommentsLoop task botId now E rest := by
              simp [importCommentsLoop, hcid, hn, hmem, hb]
            by_cases hmem' : pyStripString raw ∈ E'
            · rw [show importCommentsLoop task botId now2 E' (cm :: rest) =
                  importCommentsLoop task botId now2 E' rest by
                simp [importCommentsLoop, hcid, hn, hmem']]
              refine ih E E' hEE ?_
              intro c hc n hcn
              exact hins c (hfirst ▸ hc) n hcn
            · rw [show importCommentsLoop task botId now2 E' (cm :: rest) =
                  importCommentsLoop task botId now2 E' rest by
                simp [importCommentsLoop, hcid, hn, hmem', hb]]
              refine ih E E' hEE ?_
              intro c hc n hcn
              exact hins c (hfirst ▸ hc) n hcn
          · have hfirst : importCommentsLoop task botId now E (cm :: rest) =
                (mkImportedComment task botId cm raw (pyStripString raw)
                    (normalizeCommentBody cm.bodyText) now ::
                  (importCommentsLoop task botId now (pyStripString raw :: E) rest).1,
                  (importCommentsLoop task botId now (pyStripString raw :: E) rest).2 + 1) := by
              simp [importCommentsLoop, hcid, hn, hmem, hb]
            have hmem' : pyStripString raw ∈ E' := by
              have hmemc : mkImportedComment task botId cm raw
                  (pyStripString raw) (normalizeCommentBody cm.bodyText) now ∈
                  (importCommentsLoop task botId now E (cm :: rest)).1 := by
                rw [hfirst]
                exact List.mem_cons_self _ _
              exact hins _ hmemc (pyStripString raw) rfl
            rw [show importCommentsLoop task botId now2 E' (cm :: rest) =
                importCommentsLoop task botId now2 E' rest by
              simp [importCommentsLoop, hcid, hn, hmem']]
            refine ih (pyStripString raw :: E) E' ?_ ?_
            · intro x hx
              rcases List.mem_cons.mp hx with hx | hx
              · exact hx ▸ hmem'
              · exact hEE x hx
            · intro c hc n hcn
              refine hins c ?_ n hcn
              rw [hfirst]
              exact List.mem_cons_of_mem _ hc

/-- The existing-id query distributes over concatenated comment tables. -/
theorem existingJiraIds_append (task : Task) (l1 l2 : List CommentRec)
    (ids : List String) :
    existingJiraIds task (l1 ++ l2) ids =
      existingJiraIds task l1 ids ++ existingJiraIds task l2 ids := by
  simp [existingJiraIds, List.filter_append, List.filterMap_append]

/-- A comment of the table with matching task, source and listed source id
contributes that id to the existing-id query. -/
theorem mem_existingJiraIds (task : Task) (l : List CommentRec)
    (ids : List String) (c : CommentRec) (n : String) (hc : c ∈ l)
    (h1 : c.taskId = task.id) (h2 : c.source = "jira")
    (h3 : c.sourceId = some n) (h4 : n ≠ "") (h5 : n ∈ ids) :
    n ∈ existingJiraIds task l ids := by
  unfold existingJiraIds
  refine List.mem_filter.mpr ⟨?_, by simpa using h4⟩
  refine List.mem_filterMap.mpr ⟨c, ?_, h3⟩
  refine List.mem_filter.mpr ⟨hc, ?_⟩
  simp [h1, h2, h3, h5]

/-- Re-importing the same remote comments over the table extended by the
first import's inserts inserts nothing. -/
theorem importJiraComments_idempotent (task : Task)
    (localComments : List CommentRec) (remote : List JiraComment)
    (botId : String) (now now2 : Int) :
    importJiraComments task
      (localComments ++ (importJiraComments task localComments remote botId now).1)
      remote botId now2 = ([], 0) := by
  unfold importJiraComments
  by_cases hr : remote.isEmpty
  · simp [hr]
  · by_cases hi : (jiraCommentIds remote).isEmpty
    · simp [hr, hi]
    · simp only [hr, hi, if_false, Bool.false_eq_true]
      refine importLoop_all_skipped task botId now now2 remote
        (existingJiraIds task localComments (jiraCommentIds remote)) _ ?_ ?_
      · intro x hx
        rw [existingJiraIds_append]
        exact List.mem_append_left _ hx
      · intro c hc n hn
        rw [existingJiraIds_append]
        refine List.mem_append_right _ ?_
        obtain ⟨h1, h2, n0, h3, h4, h5⟩ :=
          importLoop_inserted_fields task botId now remote
            (existingJiraIds task localComments (jiraCommentIds remote)) c hc
        have hnn : n = n0 := by
          rw [hn] at h3
          exact (Option.some.injEq _ _).mp h3.symm |>.symm
        subst hnn
        exact mem_existingJiraIds task _ _ c n hc h1 h2 h3 h4 h5

/-- Membership through the insertion step of the comment sort. -/
theorem mem_insertByCreated (x c : CommentRec) (l : List CommentRec) :
    x ∈ insertByCreated c l ↔ x = c ∨ x ∈ l := by
  induction l with
  | nil => simp [insertByCreated]
  | cons d rest ih =>
    by_cases h : c.createdAt ≤ d.createdAt
    · simp [insertByCreated, h]
    · simp only [insertByCreated, h, if_false, List.mem_cons, ih]
      tauto

/-- Sorting the eligible comments preserves membership. -/
theorem mem_sortByCreatedAsc (x : CommentRec) (l : List CommentRec) :
    x ∈ sortByCreatedAsc l ↔ x ∈ l := by
  induction l with
  | nil => simp [sortByCreatedAsc]
  | cons c rest ih =>
    show x ∈ insertByCreated c (sortByCreatedAsc rest) ↔ _
    rw [mem_insertByCreated, ih]
    simp

/-- A present key always makes `List.lookup` return something. -/
theorem lookup_isSome_of_mem (l : List (String × String)) (k j : String)
    (h : (k, j) ∈ l) : ∃ w, l.lookup k = some w := by
  induction l with
  | nil => cases h
  | cons e rest ih =>
    rcases List.mem_cons.mp h with he | ht
    · refine ⟨j, ?_⟩
      rw [← he]
      simp [List.lookup]
    · by_cases hk : k = e.1
      · exact ⟨e.2, by
          rcases e with ⟨k1, v1⟩
          simp only at hk
          simp [List.lookup, hk]⟩
      · obtain ⟨w, hw⟩ := ih ht
        refine ⟨w, ?_⟩
        have hbe : (k == e.1) = false := by simp [hk]
        rcases e with ⟨k1, v1⟩
        simp only at hbe
        simp [List.lookup, hbe, hw]

/-- When every `addComment` call succeeds with a truthy id, the export loop
records an update for every processed comment. -/
theorem exportLoop_covers (userName : String → String)
    (addComment : String → AddCommentOutcome)
    (hgood : ∀ b, ∃ i, addComment b = .ok (some i) ∧ pyStripString i ≠ "") :
    ∀ (l : List CommentRec) (c : CommentRec), c ∈ l →
      ∃ j, (c.id, j) ∈ (exportCommentsLoop userName addComment l).1 := by
  intro l
  induction l with
  | nil => intro c hc; cases hc
  | cons d rest ih =>
    intro c hc
    obtain ⟨i, hok, hne⟩ := hgood (exportBody d (userName d.authorId))
    have hstep : (exportCommentsLoop userName addComment (d :: rest)).1 =
        (d.id, pyStripString i) ::
          (exportCommentsLoop userName addComment rest).1 := by
      simp [exportCommentsLoop, hok, hne]
    rcases List.mem_cons.mp hc with he | ht
    · subst he
      exact ⟨pyStripString i, by rw [hstep]; exact List.mem_cons_self _ _⟩
    · obtain ⟨j, hj⟩ := ih c ht
      exact ⟨j, by rw [hstep]; exact List.mem_cons_of_mem _ hj⟩

/-- Re-exporting after a fully successful export run sends nothing: every
previously eligible comment now carries its export marker. -/
theorem exportTaskComments_idempotent (task : Task)
    (localComments : List CommentRec) (userName : String → String)
    (addComment : String → AddCommentOutcome) (now now2 : Int)
    (hgood : ∀ b, ∃ i, addComment b = .ok (some i) ∧ pyStripString i ≠ "") :
    (exportTaskComments task
      (exportTaskComments task localComments userName addComment now).comments
      userName addComment now2).exportedCount = 0 ∧
    (exportTaskComments task
      (exportTaskComments task localComments userName addComment now).comments
      userName addComment now2).addCalls = [] := by
  by_cases hk : pyTruthy task.jiraKey = true
  · have hfil : ((exportTaskComments task localComments userName addComment
        now).comments.filter fun c =>
          c.taskId = task.id && c.source = "app" && c.jiraCommentId = none) = [] := by
      rw [List.filter_eq_nil_iff]
      intro c' hc'
      have hcomm : (exportTaskComments task localComments userName addComment
          now).comments = localComments.map fun c =>
            match (exportCommentsLoop userName addComment
                (sortByCreatedAsc (localComments.filter fun c =>
                  c.taskId = task.id && c.source = "app" &&
                    c.jiraCommentId = none))).1.lookup c.id with
            | some jid =>
              { c with jiraCommentId := some jid, jiraExportedAt := some now }
            | none => c := by
        unfold exportTaskComments
        rw [if_neg (by simp [hk])]
      rw [hcomm] at hc'
      obtain ⟨c, hcl, hmap⟩ := List.mem_map.mp hc'
      cases hlu : (exportCommentsLoop userName addComment
          (sortByCreatedAsc (localComments.filter fun c =>
            c.taskId = task.id && c.source = "app" &&
              c.jiraCommentId = none))).1.lookup c.id with
      | some jid =>
        rw [hlu] at hmap
        subst hmap
        simp
      | none =>
        rw [hlu] at hmap
        subst hmap
        intro hP
        have hcP : c ∈ localComments.filter fun c =>
            c.taskId = task.id && c.source = "app" && c.jiraCommentId = none :=
          List.mem_filter.mpr ⟨hcl, hP⟩
        have hcS : c ∈ sortByCreatedAsc (localComments.filter fun c =>
            c.taskId = task.id && c.source = "app" && c.jiraCommentId = none) :=
          (mem_sortByCreatedAsc _ _).mpr hcP
        obtain ⟨j, hj⟩ := exportLoop_covers userName addComment hgood _ c hcS
        obtain ⟨w, hw⟩ := lookup_isSome_of_mem _ c.id j hj
        rw [hlu] at hw
        cases hw
    have hsecond : ∀ lc : List CommentRec,
        (lc.filter fun c =>
          c.taskId = task.id && c.source = "app" && c.jiraCommentId = none) = [] →
        (exportTaskComments task lc userName addComment now2).exportedCount = 0 ∧
        (exportTaskComments task lc userName addComment now2).addCalls = [] := by
      intro lc hfil2
      unfold exportTaskComments
      rw [if_neg (by simp [hk]), hfil2]
      exact ⟨rfl, rfl⟩
    exact hsecond _ hfil
  · have hk' : ¬ pyTruthy task.jiraKey = true := hk
    have h1 : (exportTaskComments task localComments userName addComment
        now).comments = localComments := by
      unfold exportTaskComments
      rw [if_pos (by simpa using hk')]
    rw [h1]
    constructor <;>
    · unfold exportTaskComments
      rw [if_pos (by simpa using hk')]

/-- C3: the comment bridge is idempotent in both directions.  Importing the
same remote comments a second time (over the table extended by the first
import) inserts zero rows — the (task, "jira", source-id) key filters every
one out; and when the remote accepts every exported comment (returning a
truthy id, as Jira does on success), a second export run sends zero comments
because each got its export marker on the first success. -/
theorem C3_comment_bridge_idempotent (task : Task)
    (localComments : List CommentRec) (remote : List JiraComment)
    (botId : String) (now now2 : Int) (userName : String → String)
    (addComment : String → AddCommentOutcome)
    (hgood : ∀ b, ∃ i, addComment b = .ok (some i) ∧ pyStripString i ≠ "") :
    importJiraComments task
      (localComments ++ (importJiraComments task localComments remote botId now).1)
      remote botId now2 = ([], 0) ∧
    (exportTaskComments task
      (exportTaskComments task localComments userName addComment now).comments
      userName addComment now2).exportedCount = 0 ∧
    (exportTaskComments task
      (exportTaskComments task localComments userName addComment now).comments
      userName addComment now2).addCalls = [] :=
  ⟨importJiraComments_idempotent task localComments remote botId now now2,
    (exportTaskComments_idempotent task localComments userName addComment now
      now2 hgood).1,
    (exportTaskComments_idempotent task localComments userName addComment now
      now2 hgood).2⟩

/-! ### C3 witness fixtures -/

/-- A linked task with one local and one remote comment. -/
def exLinkedTask3 : Task :=
  { id := "task-c", boardId := "board-1", laneId := "lane-1",
    stateKey := "backlog", title := "c", description := "", ownerId := none,
    priority := "P2", type := "Feature", tags := [], dueDate := none,
    blocked := false, blockedReason := none, jiraKey := some "CMT-1",
    jiraUrl := some "https://j/browse/CMT-1", jiraConnectionId := none,
    jiraSyncEnabled := true, jiraProjectKey := none, jiraIssueType := none,
    jiraUpdatedAt := none, jiraLastSyncAt := some 10, orderIndex := 0,
    version := 0, createdAt := 0, updatedAt := 5 }

/-- A remote comment to import. -/
def exRemoteComment : JiraComment :=
  { id := some "501", authorDisplayName := some "Alice", authorEmail := none,
    authorAccountId := none, created := some 30, bodyText := "hello from jira" }

/-- A never-exported local comment. -/
def exLocalComment : CommentRec :=
  { id := "lc-1", taskId := "task-c", authorId := "u1", body := "local note",
    source := "app", sourceId := none, sourceAuthor := none, sourceUrl := none,
    jiraCommentId := none, jiraExportedAt := none, createdAt := 20 }

/-- C3 witness. -/
theorem C3_witness :
    importJiraComments exLinkedTask3
      ([exLocalComment] ++ (importJiraComments exLinkedTask3 [exLocalComment]
        [exRemoteComment] "bot-1" 40).1)
      [exRemoteComment] "bot-1" 41 = ([], 0) ∧
    (exportTaskComments exLinkedTask3
      (exportTaskComments exLinkedTask3 [exLocalComment] (fun _ => "Udo")
        (fun _ => AddCommentOutcome.ok (some "900")) 40).comments
      (fun _ => "Udo") (fun _ => AddCommentOutcome.ok (some "900")) 41).exportedCount = 0 ∧
    (exportTaskComments exLinkedTask3
      (exportTaskComments exLinkedTask3 [exLocalComment] (fun _ => "Udo")
        (fun _ => AddCommentOutcome.ok (some "900")) 40).comments
      (fun _ => "Udo") (fun _ => AddCommentOutcome.ok (some "900")) 41).addCalls = [] :=
  C3_comment_bridge_idempotent exLinkedTask3 [exLocalComment] [exRemoteComment]
    "bot-1" 40 41 (fun _ => "Udo") (fun _ => AddCommentOutcome.ok (some "900"))
    (fun b => ⟨"900", rfl, by decide⟩)

/-! ### Sanitizer lemmas for C8 -/

/-- Dropping while `p` skips over an all-`p` prefix. -/
theorem dropWhile_append_of_all (p : Char → Bool) (X W : List Char)
    (h : ∀ x ∈ X, p x = true) : (X ++ W).dropWhile p = W.dropWhile p := by
  induction X with
  | nil => rfl
  | cons a rest ih =>
    have ha : p a = true := h a (List.mem_cons_self a rest)
    simp only [List.cons_append, List.dropWhile_cons, ha, if_true]
    exact ih fun x hx => h x (List.mem_cons_of_mem a hx)

/-- An all-`p` prefix does not affect the two-sided strip. -/
theorem stripEnds_append_left (p : Char → Bool) (X Y : List Char)
    (h : ∀ x ∈ X, p x = true) : stripEnds p (X ++ Y) = stripEnds p Y := by
  unfold stripEnds
  rw [dropWhile_append_of_all p X Y h]

/-- An all-`p` suffix does not affect the two-sided strip. -/
theorem stripEnds_append_right (p : Char → Bool) (Y Z : List Char)
    (h : ∀ x ∈ Z, p x = true) : stripEnds p (Y ++ Z) = stripEnds p Y := by
  unfold stripEnds
  cases hd : Y.dropWhile p with
  | nil =>
    have hz : Z.dropWhile p = [] := List.dropWhile_eq_nil_iff.mpr h
    rw [List.dropWhile_append, hd, hz]
    simp
  | cons d ds =>
    rw [List.dropWhile_append, hd]
    simp only [List.isEmpty_cons, Bool.false_eq_true, if_false]
    rw [List.reverse_append]
    rw [dropWhile_append_of_all p Z.reverse (d :: ds).reverse
      fun x hx => h x (List.mem_reverse.mp hx)]

/-- Stripping an all-`p` list yields the empty list. -/
theorem stripEnds_eq_nil_of_all (p : Char → Bool) (l : List Char)
    (h : ∀ x ∈ l, p x = true) : stripEnds p l = [] := by
  unfold stripEnds
  rw [List.dropWhile_eq_nil_iff.mpr h]
  rfl

/-- If the two-sided strip is empty, the whole list satisfied `p`. -/
theorem all_of_stripEnds_eq_nil (p : Char → Bool) (l : List Char)
    (h : stripEnds p l = []) : ∀ x ∈ l, p x = true := by
  unfold stripEnds at h
  have h2 : (l.dropWhile p).reverse.dropWhile p = [] := by
    have := congrArg List.reverse h
    simpa using this
  have h3 : ∀ x ∈ (l.dropWhile p).reverse, p x = true :=
    List.dropWhile_eq_nil_iff.mp h2
  have h4 : ∀ x ∈ l.dropWhile p, p x = true :=
    fun x hx => h3 x (List.mem_reverse.mpr hx)
  intro x hx
  rw [← List.takeWhile_append_dropWhile p l] at hx
  rcases List.mem_append.mp hx with hx | hx
  · exact List.mem_takeWhile_imp hx
  · exact h4 x hx

/-- Every list splits as an all-`p` prefix, its two-sided strip, and an
all-`p` suffix. -/
theorem stripEnds_decomposition (p : Char → Bool) (l : List Char) :
    l = l.takeWhile p ++ stripEnds p l ++
      ((l.dropWhile p).reverse.takeWhile p).reverse := by
  conv_lhs => rw [← List.takeWhile_append_dropWhile p l]
  rw [List.append_assoc]
  congr 1
  conv_lhs => rw [← List.reverse_reverse (l.dropWhile p),
    ← List.takeWhile_append_dropWhile p (l.dropWhile p).reverse]
  rw [List.reverse_append]
  rfl

/-- The image of a whitespace character under lower-case + space-to-hyphen
is either dropped by the label filter or is a hyphen. -/
theorem ws_image_edge (c : Char) (h : Char.isWhitespace c = true) :
    jiraLabelKeep (if Char.toLower c = ' ' then '-' else Char.toLower c) = false ∨
    (if Char.toLower c = ' ' then '-' else Char.toLower c) = '-' := by
  have h4 := h
  simp only [Char.isWhitespace, Bool.or_eq_true, decide_eq_true_eq] at h4
  rcases h4 with ((h' | h') | h') | h' <;> subst h' <;> decide

/-- The label-filter image of an all-whitespace list consists of edge
characters only. -/
theorem core_all_edge (X : List Char) (hX : ∀ x ∈ X, Char.isWhitespace x = true) :
    ∀ d ∈ ((X.map Char.toLower).map fun c =>
        if c = ' ' then '-' else c).filter jiraLabelKeep,
      labelEdgeChar d = true := by
  intro d hd
  obtain ⟨hdm, hdk⟩ := List.mem_filter.mp hd
  obtain ⟨e, hem, hed⟩ := List.mem_map.mp hdm
  obtain ⟨x, hxm, hxe⟩ := List.mem_map.mp hem
  subst hed
  subst hxe
  rcases ws_image_edge x (hX x hxm) with hk | hk
  · rw [hdk] at hk
    cases hk
  · rw [hk]
    decide

/-- The label filter distributes over concatenation. -/
theorem core_append (A B : List Char) :
    (((A ++ B).map Char.toLower).map fun c =>
        if c = ' ' then '-' else c).filter jiraLabelKeep =
      ((A.map Char.toLower).map fun c =>
        if c = ' ' then '-' else c).filter jiraLabelKeep ++
      ((B.map Char.toLower).map fun c =>
        if c = ' ' then '-' else c).filter jiraLabelKeep := by
  simp [List.map_append, List.filter_append]

/-- Pre-stripping whitespace does not change the edge-stripped filter
output: the whitespace edges map to hyphens or vanish, and hyphens are
edge-stripped anyway. -/
theorem core_stripEnds_ws (raw : List Char) :
    stripEnds labelEdgeChar
      ((((stripEnds Char.isWhitespace raw).map Char.toLower).map fun c =>
          if c = ' ' then '-' else c).filter jiraLabelKeep) =
    stripEnds labelEdgeChar
      (((raw.map Char.toLower).map fun c =>
          if c = ' ' then '-' else c).filter jiraLabelKeep) := by
  conv_rhs => rw [stripEnds_decomposition Char.isWhitespace raw,
    List.append_assoc, core_append, core_append]
  rw [stripEnds_append_left labelEdgeChar _ _
    (core_all_edge _ fun x hx => List.mem_takeWhile_imp hx)]
  rw [stripEnds_append_right labelEdgeChar _ _
    (core_all_edge _ fun x hx => List.mem_takeWhile_imp (List.mem_reverse.mp hx))]

/-- `_jira_labelize` coincides with the amended description of the
sanitizer on every input. -/
theorem jiraLabelizeChars_eq_amended (raw : List Char) :
    jiraLabelizeChars raw = labelizeAmendedChars raw := by
  unfold jiraLabelizeChars labelizeAmendedChars
  by_cases h : stripEnds Char.isWhitespace raw = []
  · have hall : ∀ x ∈ raw, Char.isWhitespace x = true :=
      all_of_stripEnds_eq_nil Char.isWhitespace raw h
    have hcore : stripEnds labelEdgeChar
        (((raw.map Char.toLower).map fun c =>
            if c = ' ' then '-' else c).filter jiraLabelKeep) = [] :=
      stripEnds_eq_nil_of_all labelEdgeChar _ (core_all_edge raw hall)
    rw [h]
    simp only [List.map_map] at hcore
    simp [hcore]
  · have hmap : (stripEnds Char.isWhitespace raw).map Char.toLower ≠ [] := by
      simpa using h
    rw [if_neg hmap]
    have hM := core_stripEnds_ws raw
    simp only [List.map_map] at hM ⊢
    rw [hM]
    by_cases hL : stripEnds labelEdgeChar
        ((raw.map ((fun c => if c = ' ' then '-' else c) ∘ Char.toLower)).filter
          jiraLabelKeep) = []
    · simp [hL]
    · have hT : ¬ (stripEnds labelEdgeChar
          ((raw.map ((fun c => if c = ' ' then '-' else c) ∘ Char.toLower)).filter
            jiraLabelKeep)).take 50 = [] := by
        rw [List.take_eq_nil_iff]
        simp [hL]
      rw [if_neg hL, if_neg hT]

/-- Every request of the create fallback chain carries the labels of the
original request. -/
theorem createWithRetries_labels (remote : CreateIssueReq → CreateOutcome)
    (req : CreateIssueReq) :
    ∀ r ∈ (createWithRetries remote req).2, r.labels = req.labels := by
  unfold createWithRetries
  cases remote req with
  | ok k => intro r hr; rw [List.mem_singleton.mp hr]
  | apiError c =>
    by_cases h : c = 400
    · simp only [h, if_pos rfl]
      cases remote { req with priorityName := none } with
      | ok k =>
        intro r hr
        rcases hr with _ | ⟨_, hr⟩
        · rfl
        · rw [List.mem_singleton.mp hr]
      | apiError c2 =>
        cases remote { req with priorityName := none, assigneeAccountId := none } with
        | ok k =>
          intro r hr
          rcases hr with _ | ⟨_, hr⟩
          · rfl
          · rcases hr with _ | ⟨_, hr⟩
            · rfl
            · rw [List.mem_singleton.mp hr]
        | apiError c3 =>
          intro r hr
          rcases hr with _ | ⟨_, hr⟩
          · rfl
          · rcases hr with _ | ⟨_, hr⟩
            · rfl
            · rw [List.mem_singleton.mp hr]
    · simp only [h, if_neg, if_false]
      intro r hr
      rw [List.mem_singleton.mp hr]

/-- C8 (counterexample): the sanitizer also strips leading/trailing
hyphens, dots, underscores and spaces (`.strip("-. _")`), which the claim's
description omits: on `"-abc"` the code yields `"abc"` while the described
pipeline yields `"-abc"`. -/
theorem C8_counterexample_edge_strip :
    jiraLabelize "-abc" = some "abc" ∧ labelizeClaim "-abc" = some "-abc" ∧
    jiraLabelize "-abc" ≠ labelizeClaim "-abc" := by decide

/-- C8 (amended): the sanitizer lowercases, turns spaces into hyphens, keeps
only alphanumerics and `-`/`_`/`.` (equivalently, characters in
`[a-z0-9._-]`, since the string was lowercased), additionally strips
leading and trailing `-`, `.`, `_` and space characters, truncates to 50
characters and drops tags that become empty — proved as an extensional
equality with the amended pipeline.  The labels sent on every create attempt
are the deduplicated union of the sanitized task tags, the fixed product tag
`"task-daddy"` and the per-task idempotency marker. -/
theorem C8_sanitizer_and_labels (raw : String) (t : Task)
    (conn : JiraConnection) (pk : String) (it : Option String) (es : Bool)
    (am : String) (sd : Option String) (ow : Option UserRec)
    (us : Except Unit (List (Option String)))
    (rc : CreateIssueReq → CreateOutcome) (sa : Option String → Bool)
    (now : Int) (hk : pyTruthy t.jiraKey = false) :
    jiraLabelize raw = (labelizeAmendedChars raw.data).map String.mk ∧
    "task-daddy" ∈ ((t.tags.filterMap jiraLabelize) ++
      ["task-daddy", "task-daddy-task-" ++ t.id]).dedup ∧
    ("task-daddy-task-" ++ t.id) ∈ ((t.tags.filterMap jiraLabelize) ++
      ["task-daddy", "task-daddy-task-" ++ t.id]).dedup ∧
    (∀ tag ∈ t.tags, ∀ l, jiraLabelize tag = some l →
      l ∈ ((t.tags.filterMap jiraLabelize) ++
        ["task-daddy", "task-daddy-task-" ++ t.id]).dedup) ∧
    (∀ r ∈ (createJiraIssueFromTask t conn pk it es am sd ow us (.error ())
        rc sa now).createCalls,
      r.labels = ((t.tags.filterMap jiraLabelize) ++
        ["task-daddy", "task-daddy-task-" ++ t.id]).dedup) := by
  refine ⟨?_, ?_, ?_, ?_, ?_⟩
  · unfold jiraLabelize
    rw [jiraLabelizeChars_eq_amended]
  · rw [List.mem_dedup]
    simp
  · rw [List.mem_dedup]
    simp
  · intro tag htag l hl
    rw [List.mem_dedup]
    refine List.mem_append_left _ ?_
    exact List.mem_filterMap.mpr ⟨tag, htag, hl⟩
  · intro r hr
    unfold createJiraIssueFromTask at hr
    rw [hk] at hr
    simp only [Bool.false_eq_true, if_false] at hr
    rcases hcr : createWithRetries rc
        { projectKey := pk, summary := t.title, description := t.description,
          issueType := pyOrDefault it "Task",
          labels := ((t.tags.filterMap jiraLabelize) ++
            ["task-daddy", "task-daddy-task-" ++ t.id]).dedup,
          priorityName := some (jiraPriorityOf t.priority),
          assigneeAccountId := resolveAssigneeAccountId am
            conn.defaultAssigneeAccountId sd t.ownerId ow us } with ⟨res, calls⟩
    have hlbl := createWithRetries_labels rc
        { projectKey := pk, summary := t.title, description := t.description,
          issueType := pyOrDefault it "Task",
          labels := ((t.tags.filterMap jiraLabelize) ++
            ["task-daddy", "task-daddy-task-" ++ t.id]).dedup,
          priorityName := some (jiraPriorityOf t.priority),
          assigneeAccountId := resolveAssigneeAccountId am
            conn.defaultAssigneeAccountId sd t.ownerId ow us }
    rw [hcr] at hlbl
    cases res with
    | error c =>
      simp only [hcr] at hr
      exact hlbl r (by simpa using hr)
    | ok createdKey =>
      simp only [hcr] at hr
      by_cases hck : pyTruthy createdKey = true
      · simp only [hck, if_pos] at hr
        exact hlbl r (by simpa [hck] using hr)
      · exact hlbl r (by simpa [hck] using hr)

/-- C8 witness. -/
theorem C8_witness :
    jiraLabelize "  Mixed CASE tag  " =
      (labelizeAmendedChars "  Mixed CASE tag  ".data).map String.mk ∧
    "task-daddy" ∈ ((exUnlinkedTask.tags.filterMap jiraLabelize) ++
      ["task-daddy", "task-daddy-task-" ++ exUnlinkedTask.id]).dedup ∧
    "my-tag" ∈ ((exUnlinkedTask.tags.filterMap jiraLabelize) ++
      ["task-daddy", "task-daddy-task-" ++ exUnlinkedTask.id]).dedup := by
  have h := C8_sanitizer_and_labels "  Mixed CASE tag  " exUnlinkedTask exConnA
    "PROJ" none true "unassigned" none none (.ok [])
    (fun _ => .ok (some "K-1")) (fun _ => true) 0 (by decide)
  exact ⟨h.1, h.2.1, h.2.2.2.1 "My Tag!" (by decide) "my-tag" (by decide)⟩

end TaskDaddy
